import Mathlib

/-!
The kvoice audio pipeline: capture frame loop, stream pull callback and playback control loop

A shallow embedding of `src/sound_input_impl.cpp`, `src/stream_impl.cpp` and
`src/sound_output_impl.cpp`.  Calls into the audio backend (BASS), the Opus codec and
the RNNoise filter are external: they appear as fields of environment records
(`Codec`, `BassRecord`, `Bass`) whose results the embedding does not constrain, and every
call that matters for a property is written to an event log.  Callback slots
(`std::function`) hold the identity of the registered callback (`Option Nat`);
invoking one appends an event.
-/

namespace kvoice

/-- Sample values.  The source uses `float`; the embedding only moves samples around and
compares them, so an ordered carrier is enough. -/
abbrev Sample := Int

/-- Constant `kOpusFrameSize` of `sound_input_impl.hpp`. -/
def kOpusFrameSize : Nat := 960

/-- Constant `kPacketMaxSize` of `sound_input_impl.hpp`. -/
def kPacketMaxSize : Nat := 32768

/-! ## Ring buffer -/

/-- Modelled from the spec: `jnk0le::Ringbuffer<T, buffer_size>` (`ringbuffer.hpp` is
included by the sources but is not among them).  Spec §4.1: a fixed-capacity FIFO of
samples; `write` copies as many samples as fit, bounded by `writeAvailable`; `read`
returns up to `count` samples; `readAvailable` is the exact number retrievable.
`data` lists the buffered samples, oldest first. -/
structure Ringbuffer (α : Type) where
  buffer_size : Nat
  data : List α
deriving DecidableEq, Repr

namespace Ringbuffer

variable {α : Type}

/-- Number of samples that can be read. -/
def readAvailable (r : Ringbuffer α) : Nat := r.data.length

/-- Number of samples that can still be written. -/
def writeAvailable (r : Ringbuffer α) : Nat := r.buffer_size - r.data.length

/-- Whether nothing can be read. -/
def isEmpty (r : Ringbuffer α) : Bool := r.readAvailable == 0

/-- Writes the first `count` samples of `buff`, as many as fit; returns the buffer and
the number written. -/
def writeBuff (r : Ringbuffer α) (buff : List α) (count : Nat) : Ringbuffer α × Nat :=
  let to_write := min count r.writeAvailable
  ({ r with data := r.data ++ buff.take to_write }, to_write)

/-- Reads up to `count` samples, oldest first; returns the buffer and the samples read. -/
def readBuff (r : Ringbuffer α) (count : Nat) : Ringbuffer α × List α :=
  let to_read := min count r.readAvailable
  ({ r with data := r.data.drop to_read }, r.data.take to_read)

end Ringbuffer

/-! ## Capture session (`sound_input_impl`) -/

/-- The Opus encoder and the RNNoise filter, as used by `process_input`.  Both are
stateful: `E` is the encoder state, `D` the denoiser state.
`opus_encode_float enc pcm frame_size max_data_bytes` returns the new encoder state, the
bytes left in the packet buffer and the returned length (negative on failure). -/
structure Codec (E D : Type) where
  opus_encode_float : E → List Sample → Nat → Nat → E × List Nat × Int
  rnnoise_process_frame : D → List Sample → D × List Sample

/-- The backend calls on the record channel.  `β` is the backend state: a call returns
the state after it and the `BOOL` it answers, so a repeated call may be answered
differently from the first. -/
structure BassRecord (β : Type) where
  BASS_ChannelPlay : β → Nat → Bool → β × Bool
  BASS_ChannelPause : β → Nat → β × Bool

/-- Backend calls that the embedding records, with the arguments that matter. -/
inductive BassCall where
  | ChannelPlay (handle : Nat) (restart : Bool)
  | ChannelPause (handle : Nat)
  | StreamCreateURL (url : String)
  | StreamCreate (sample_rate : Int)
  | StreamFree (handle : Nat)
  | ChannelSetSyncEnd (handle : Nat)
  | ChannelSetGranule (handle : Nat) (granule : Nat)
  | SetDevice (device : Nat)
  | SetConfigGvolStream (gain : Sample)
  | Set3DPosition
  | Apply3D
  | ChannelSetVol (handle : Nat) (volume : Sample)
  | ChannelSet3DAttributes (handle : Nat) (mode : Nat) (min max : Sample)
      (iangle oangle : Int) (outvol : Sample)
  | ChannelSet3DPosition (handle : Nat) (pos orient vel : Sample × Sample × Sample)
deriving DecidableEq, Repr

/-- Fields of `sound_input_impl` (`sound_input_impl.hpp`). -/
structure sound_input_impl (E D : Type) where
  sample_rate_ : Int
  frames_per_buffer_ : Int
  encoder : E
  record_handle : Nat
  on_voice_input : Option Nat
  on_raw_voice_input : Option Nat
  input_volume_fx : Nat
  input_volume : Sample
  input_active : Bool
  rnnoise_active : Bool
  rnnoise : D
  encoder_buffer : List Sample
  temporary_buffer : Ringbuffer Sample
deriving DecidableEq, Repr

/-- What `process_input` does, in order: the callbacks it invokes, the calls of the
denoiser and the encoder, and the write of the chunk into the ring buffer (with the
number of samples `writeBuff` reports written). -/
inductive InputEvent where
  | raw_voice_input (cb : Nat) (float_buff : List Sample) (buff_len : Nat)
      (mic_level : Option Sample)
  | rnnoise_frame (frame : List Sample)
  | encode (pcm : List Sample) (count : Nat)
  | voice_input (cb : Nat) (packet : List Nat) (len : Int)
  | write_buff (written : Nat)
deriving DecidableEq, Repr

/-- Whether the event is a call of `opus_encode_float`. -/
def InputEvent.isEncode : InputEvent → Bool
  | .encode _ _ => true
  | _ => false

/-- Whether the event is an invocation of the encoded-packet callback. -/
def InputEvent.isVoiceInput : InputEvent → Bool
  | .voice_input _ _ _ => true
  | _ => false

namespace sound_input_impl

variable {E D : Type}

/-- Model of `sound_input_impl::enable_input` on the backend state `b`: returned value,
session, backend calls made, backend state. -/
def enable_input {β : Type} (bk : BassRecord β) (b : β) (s : sound_input_impl E D) :
    Bool × sound_input_impl E D × List BassCall × β :=
  if !s.input_active then
    if s.record_handle ≠ 0 then
      let r := bk.BASS_ChannelPlay b s.record_handle false
      (r.2, { s with input_active := r.2 }, [BassCall.ChannelPlay s.record_handle false], r.1)
    else (false, s, [], b)
  else (false, s, [], b)

/-- Model of `sound_input_impl::disable_input` on the backend state `b`: returned value,
session, backend calls made, backend state. -/
def disable_input {β : Type} (bk : BassRecord β) (b : β) (s : sound_input_impl E D) :
    Bool × sound_input_impl E D × List BassCall × β :=
  if s.input_active then
    if s.record_handle ≠ 0 then
      let r := bk.BASS_ChannelPause b s.record_handle
      (!r.2, { s with input_active := !r.2 }, [BassCall.ChannelPause s.record_handle], r.1)
    else (false, s, [], b)
  else (false, s, [], b)

/-- Model of `sound_input_impl::toggle_rnnoise`. -/
def toggle_rnnoise (s : sound_input_impl E D) (toogle : Bool) : sound_input_impl E D :=
  { s with rnnoise_active := toogle }

/-- Model of `sound_input_impl::set_input_callback`. -/
def set_input_callback (s : sound_input_impl E D) (cb : Option Nat) : sound_input_impl E D :=
  { s with on_voice_input := cb }

/-- Model of `sound_input_impl::set_raw_input_callback`. -/
def set_raw_input_callback (s : sound_input_impl E D) (cb : Option Nat) :
    sound_input_impl E D :=
  { s with on_raw_voice_input := cb }

/-- The statement `count = temporary_buffer.readBuff(encoder_buffer.data(), kOpusFrameSize)`:
the samples read overwrite the start of `encoder_buffer`. -/
def read_frame (s : sound_input_impl E D) : sound_input_impl E D × Nat :=
  let rd := s.temporary_buffer.readBuff kOpusFrameSize
  ({ s with temporary_buffer := rd.1,
            encoder_buffer := rd.2 ++ s.encoder_buffer.drop rd.2.length }, rd.2.length)

/-- The statement `if (rnnoise_active) rnnoise_process_frame(rnnoise, buf, buf)`, in
place on `encoder_buffer`. -/
def denoise_frame (c : Codec E D) (s : sound_input_impl E D) :
    sound_input_impl E D × List InputEvent :=
  if s.rnnoise_active then
    let dn := c.rnnoise_process_frame s.rnnoise s.encoder_buffer
    ({ s with rnnoise := dn.1, encoder_buffer := dn.2 },
      [InputEvent.rnnoise_frame s.encoder_buffer])
  else (s, [])

/-- The call of `opus_encode_float` on `count` samples of `encoder_buffer` and what
follows it in the loop body.  The flag is `true` when `process_input` is left through
`if (len < 0 || len > kPacketMaxSize) return true;`. -/
def encode_frame (c : Codec E D) (s : sound_input_impl E D) (count : Nat) :
    sound_input_impl E D × List InputEvent × Bool :=
  let en := c.opus_encode_float s.encoder s.encoder_buffer count kPacketMaxSize
  let len := en.2.2
  if len < 0 ∨ len > (kPacketMaxSize : Int) then
    ({ s with encoder := en.1 }, [InputEvent.encode s.encoder_buffer count], true)
  else
    match s.on_voice_input with
    | some cb =>
      ({ s with encoder := en.1 },
        [InputEvent.encode s.encoder_buffer count, InputEvent.voice_input cb en.2.1 len], false)
    | none => ({ s with encoder := en.1 }, [InputEvent.encode s.encoder_buffer count], false)

/-- Body of the `while` loop of `process_input`: drains one frame into `encoder_buffer`,
denoises it when enabled, encodes it and hands the packet to the encoded-packet callback.
The events of the body are appended to `ev`; the flag is `true` when the body leaves
`process_input` through its `return true`. -/
def drain_frame (c : Codec E D) (s : sound_input_impl E D) (ev : List InputEvent) :
    sound_input_impl E D × List InputEvent × Bool :=
  let r1 := read_frame s
  let r2 := denoise_frame c r1.1
  let r3 := encode_frame c r2.1 r1.2
  (r3.1, ev ++ r2.2 ++ r3.2.1, r3.2.2)

/-- The `while (temporary_buffer.readAvailable() >= kOpusFrameSize)` loop of
`process_input`, one iteration per unit of fuel.  `none` means the fuel ran out before
the loop was left; the loop is left when its condition fails or through the
`return true` inside its body. -/
def drain_loop (c : Codec E D) :
    Nat → sound_input_impl E D → List InputEvent → Option (sound_input_impl E D × List InputEvent)
  | 0, _, _ => none
  | fuel + 1, s, ev =>
    if s.temporary_buffer.readAvailable ≥ kOpusFrameSize then
      let r := drain_frame c s ev
      if r.2.2 then some (r.1, r.2.1)
      else drain_loop c fuel r.1 r.2.1
    else some (s, ev)

/-- Model of `sound_input_impl::process_input`.  `float_buff` is the chunk the pointer and
byte length denote (`buff_len = length / sizeof(float)` samples).  Returns the session
and the events; the value returned to the backend is always `true`.  The fuel given to
the loop is one more than the number of full frames buffered. -/
def process_input (c : Codec E D) (s : sound_input_impl E D) (float_buff : List Sample) :
    Option (sound_input_impl E D × List InputEvent) :=
  let buff_len := float_buff.length
  let mic_level := float_buff.max?
  let ev := match s.on_raw_voice_input with
    | some cb => [InputEvent.raw_voice_input cb float_buff buff_len mic_level]
    | none => []
  let wr := s.temporary_buffer.writeBuff float_buff buff_len
  let s1 := { s with temporary_buffer := wr.1 }
  drain_loop c (s1.temporary_buffer.readAvailable / kOpusFrameSize + 1) s1
    (ev ++ [InputEvent.write_buff wr.2])

/-- Delivers the chunks one after the other; returns the final session together with
the events of each callback invocation, in order. -/
def process_inputs (c : Codec E D) :
    sound_input_impl E D → List (List Sample) → Option (sound_input_impl E D × List (List InputEvent))
  | s, [] => some (s, [])
  | s, chunk :: rest =>
    match process_input c s chunk with
    | none => none
    | some (s1, ev) =>
      match process_inputs c s1 rest with
      | none => none
      | some (s2, evs) => some (s2, ev :: evs)

/-- Every chunk fits into the free space the ring buffer has when the chunk arrives. -/
def chunks_fit (c : Codec E D) : sound_input_impl E D → List (List Sample) → Bool
  | _, [] => true
  | s, chunk :: rest =>
    decide (chunk.length ≤ s.temporary_buffer.writeAvailable) &&
    match process_input c s chunk with
    | none => false
    | some (s1, _) => chunks_fit c s1 rest

end sound_input_impl

/-- Every encode succeeds: the returned length is neither negative nor above the
maximum packet size. -/
def Codec.encode_succeeds {E D : Type} (c : Codec E D) : Prop :=
  ∀ (e : E) (pcm : List Sample) (n m : Nat),
    0 ≤ (c.opus_encode_float e pcm n m).2.2 ∧
    (c.opus_encode_float e pcm n m).2.2 ≤ (kPacketMaxSize : Int)

/-- Number of `opus_encode_float` calls in a log. -/
def encode_calls (ev : List InputEvent) : Nat := (ev.filter InputEvent.isEncode).length

/-- Number of encoded-packet callback invocations in a log. -/
def voice_callbacks (ev : List InputEvent) : Nat := (ev.filter InputEvent.isVoiceInput).length

/-- A codec for examples: every encode returns a packet of 3 bytes, the denoiser is the
identity. -/
def okCodec : Codec Unit Unit where
  opus_encode_float := fun _ _ _ _ => ((), [1, 2, 3], 3)
  rnnoise_process_frame := fun _ frame => ((), frame)

/-- A capture session for examples: nothing buffered, capacity 8192 as declared in
`sound_input_impl.hpp`, encoded-packet callback 7 registered. -/
def emptySession : sound_input_impl Unit Unit where
  sample_rate_ := 48000
  frames_per_buffer_ := 420
  encoder := ()
  record_handle := 1
  on_voice_input := some 7
  on_raw_voice_input := none
  input_volume_fx := 0
  input_volume := 1
  input_active := false
  rnnoise_active := false
  rnnoise := ()
  encoder_buffer := List.replicate 960 0
  temporary_buffer := { buffer_size := 8192, data := [] }

/-! ## Streams (`stream_impl`) -/

/-- Type `kvoice::vector` (`kv_vector.hpp`): three coordinates. -/
structure vector where
  x : Sample
  y : Sample
  z : Sample
deriving DecidableEq, Repr

/-- Enumeration `stream_type`, as far as the sources use it. -/
inductive stream_type where
  | kLocalDataStream
  | kOnlineDataStream
deriving DecidableEq, Repr

/-- Fields of `stream_impl`, as read and written by `stream_impl.cpp` (the header that
declares them is not among the sources).  Pointers and handles are numbers, 0 for
null. -/
structure stream_impl where
  sample_rate : Int
  output_impl : Nat
  offset_to_set : Nat
  stream_handle : Nat
  type : stream_type
  decoder : Nat
  extra_gain : Sample
  output_gain : Sample
  position : vector
  velocity : vector
  direction : vector
  min_distance : Sample
  max_distance : Sample
  rollof_factor : Sample
  is_spatial : Bool
  on_end_cb : Option Nat
  ring_buffer : Ringbuffer Sample
deriving DecidableEq, Repr

/-- Exceptions raised by the constructors of `stream_impl`. -/
inductive voice_exception where
  | online_stream_failed
  | local_stream_failed
  | opus_decoder_failed (errc : Int)
deriving DecidableEq, Repr

/-- A device table entry: the `driver` string and whether `flags & BASS_DEVICE_ENABLED`
is set. -/
structure BASS_DEVICEINFO where
  driver : String
  enabled : Bool
deriving DecidableEq, Repr

/-- The audio backend and the Opus decoder factory as the playback side uses them.  `β` is
the backend state.  `devices b` is the device table: `BASS_GetDeviceInfo(i, &info)`
succeeds exactly for `i < (devices b).length` and then yields entry `i`.  Handles and
pointers are numbers, 0 on failure. -/
structure Bass (β : Type) where
  devices : β → List BASS_DEVICEINFO
  BASS_GetDevice : β → Nat
  BASS_SetDevice : β → Nat → β × Bool
  BASS_StreamCreateURL : β → String → β × Nat
  BASS_StreamCreate : β → Int → β × Nat
  opus_decoder_create : β → Int → β × Int × Nat

namespace stream_impl

/-- Model of `stream_impl::process_output(buffer, length)`; `length` is a `DWORD` byte
count.  Returns the returned byte count (a `DWORD`), the samples copied to `buffer`,
and the stream. -/
def process_output (st : stream_impl) (length : Nat) : Nat × List Sample × stream_impl :=
  if st.ring_buffer.isEmpty then (0, [], st)
  else
    let length_in_floats := length / 4
    if st.ring_buffer.readAvailable ≥ length_in_floats then
      let rd := st.ring_buffer.readBuff length_in_floats
      (length, rd.2, { st with ring_buffer := rd.1 })
    else
      let max_bytes := st.ring_buffer.readAvailable * 4
      let rd := st.ring_buffer.readBuff st.ring_buffer.readAvailable
      (max_bytes % 2 ^ 32, rd.2, { st with ring_buffer := rd.1 })

/-- Model of `stream_impl::push_buffer(data, count)`. -/
def push_buffer (st : stream_impl) (data : List Sample) (count : Nat) : Bool × stream_impl :=
  (true, { st with ring_buffer := (st.ring_buffer.writeBuff data count).1 })

/-- Model of the constructor `stream_impl(output, url, file_offset, sample_rate)`.
`init` holds the default member initialisers of the header.  Returns the backend, the
stream or the exception raised, and the backend calls made. -/
def create_online {β : Type} (bk : Bass β) (init : stream_impl) (b : β) (output : Nat)
    (url : String) (file_offset : Nat) (sample_rate : Int) :
    β × Except voice_exception stream_impl × List BassCall :=
  let r := bk.BASS_StreamCreateURL b url
  let st := { init with sample_rate := sample_rate, output_impl := output,
                        offset_to_set := file_offset, stream_handle := r.2 }
  if r.2 = 0 then (r.1, .error .online_stream_failed, [BassCall.StreamCreateURL url])
  else
    let st1 := { st with type := stream_type.kOnlineDataStream, decoder := 0 }
    if file_offset = 0 then
      (r.1, .ok st1, [BassCall.StreamCreateURL url, BassCall.ChannelSetSyncEnd r.2,
        BassCall.ChannelPlay r.2 false])
    else (r.1, .ok st1, [BassCall.StreamCreateURL url, BassCall.ChannelSetSyncEnd r.2])

/-- Model of the constructor `stream_impl(output, sample_rate)`. -/
def create_local {β : Type} (bk : Bass β) (init : stream_impl) (b : β) (output : Nat)
    (sample_rate : Int) : β × Except voice_exception stream_impl × List BassCall :=
  let r := bk.BASS_StreamCreate b sample_rate
  let st := { init with sample_rate := sample_rate, output_impl := output,
                        stream_handle := r.2 }
  if r.2 = 0 then (r.1, .error .local_stream_failed, [BassCall.StreamCreate sample_rate])
  else
    let d := bk.opus_decoder_create r.1 sample_rate
    let st1 := { st with type := stream_type.kLocalDataStream, decoder := d.2.2 }
    if d.2.1 ≠ 0 ∨ d.2.2 = 0 then
      (d.1, .error (.opus_decoder_failed d.2.1), [BassCall.StreamCreate sample_rate])
    else
      (d.1, .ok st1, [BassCall.StreamCreate sample_rate, BassCall.ChannelSetGranule r.2 480,
        BassCall.ChannelPlay r.2 false])

/-- Model of `stream_impl::on_end_stream_cb`. -/
def on_end_stream_cb (st : stream_impl) (cb : Option Nat) : stream_impl :=
  { st with on_end_cb := cb }

/-- Model of `stream_impl::set_url`: frees the channel, creates a channel for `url`,
registers the end sync on it and starts it. -/
def set_url {β : Type} (bk : Bass β) (b : β) (st : stream_impl) (url : String) :
    β × stream_impl × List BassCall :=
  let r := bk.BASS_StreamCreateURL b url
  (r.1, { st with stream_handle := r.2 },
    [BassCall.StreamFree st.stream_handle, BassCall.StreamCreateURL url,
      BassCall.ChannelSetSyncEnd r.2, BassCall.ChannelPlay r.2 false])

/-- Model of `stream_impl::continue_playing`. -/
def continue_playing (st : stream_impl) : List BassCall :=
  [BassCall.ChannelPlay st.stream_handle false]

/-- Model of `stream_impl::pause_playing`. -/
def pause_playing (st : stream_impl) : List BassCall :=
  [BassCall.ChannelPause st.stream_handle]

/-- Model of the destructor `stream_impl::~stream_impl`. -/
def destroy (st : stream_impl) : List BassCall := [BassCall.StreamFree st.stream_handle]

/-- The handler the sources register with `BASS_ChannelSetSync(.., BASS_SYNC_END, ..)`:
`if (ptr->on_end_cb) ptr->on_end_cb();`.  Returns the callbacks invoked. -/
def sync_end_handler (st : stream_impl) : List Nat :=
  match st.on_end_cb with
  | some cb => [cb]
  | none => []

end stream_impl

/-! ## A stream together with the backend's end syncs -/

/-- Channels that carry an end sync of the stream after a backend call: `BASS_StreamFree`
removes the channel with its syncs; `BASS_ChannelSetSync(h, BASS_SYNC_END, ..)` puts a
sync for the end on channel `h` (it fails on the null handle).  The sources pass the flag
`BASS_SYNC_END` alone, so a sync stays on its channel after it has been called. -/
def end_syncs_after (syncs : List Nat) : BassCall → List Nat
  | .StreamFree h => syncs.filter (fun c => c ≠ h)
  | .ChannelSetSyncEnd h => if h = 0 then syncs else h :: syncs
  | _ => syncs

/-- A stream, the backend state, and the channels that carry an end sync whose user
pointer is the stream. -/
structure StreamWorld (β : Type) where
  backend : β
  st : stream_impl
  end_syncs : List Nat

/-- What can happen to a stream: the operations of the claim, and the backend signalling
the end of the source on a channel.  The embedding does not forbid calls that follow
`destroy`; in the program they are calls on a dead object. -/
inductive StreamOp where
  | on_end_stream_cb (cb : Option Nat)
  | set_url (url : String)
  | continue_playing
  | pause_playing
  | destroy
  | sync_end (channel : Nat)
deriving DecidableEq, Repr

namespace StreamWorld

variable {β : Type}

/-- The world right after a constructor returned `st` having made the calls `calls`. -/
def created (b : β) (st : stream_impl) (calls : List BassCall) : StreamWorld β :=
  { backend := b, st := st, end_syncs := calls.foldl end_syncs_after [] }

/-- One operation or signal: the world after it and the end-of-stream callbacks invoked.
The operations run the code of `stream_impl` and the end syncs follow the backend calls
it makes (the destructor frees the channel, and with it the sync); an end signal on a
channel runs the registered handler once for every end sync that channel carries. -/
def step (bk : Bass β) (w : StreamWorld β) : StreamOp → StreamWorld β × List Nat
  | .on_end_stream_cb cb => ({ w with st := w.st.on_end_stream_cb cb }, [])
  | .set_url url =>
    let r := w.st.set_url bk w.backend url
    ({ w with backend := r.1, st := r.2.1,
              end_syncs := r.2.2.foldl end_syncs_after w.end_syncs }, [])
  | .continue_playing => (w, [])
  | .pause_playing => (w, [])
  | .destroy => ({ w with end_syncs := w.st.destroy.foldl end_syncs_after w.end_syncs }, [])
  | .sync_end channel =>
    (w, ((w.end_syncs.filter (fun c => c = channel)).map
      (fun _ => w.st.sync_end_handler)).flatten)

/-- A sequence of operations and signals: the final world and all end-of-stream callbacks
invoked, in order. -/
def run (bk : Bass β) : StreamWorld β → List StreamOp → StreamWorld β × List Nat
  | w, [] => (w, [])
  | w, op :: ops =>
    let r := step bk w op
    let r2 := run bk r.1 ops
    (r2.1, r.2 ++ r2.2)

end StreamWorld

/-- Whether the operation is a backend end-of-source signal. -/
def StreamOp.isSyncEnd : StreamOp → Bool
  | .sync_end _ => true
  | _ => false

/-! ## Playback engine (`sound_output_impl`) -/

/-- Structure `online_stream_parameters`: the URL and the start offset of a request. -/
structure online_stream_parameters where
  url : String
  file_offset : Nat
deriving DecidableEq, Repr

/-- Structure `request_stream_message`: optional URL parameters and the completion
callback (its identity). -/
structure request_stream_message where
  params : Option online_stream_parameters
  on_creation_callback : Nat
deriving DecidableEq, Repr

/-- The failure of a push on a full queue. -/
inductive push_failure where
  | queue_full
deriving DecidableEq, Repr

/-- Modelled from the spec: the type of `requests_queue` is declared in
`sound_output_impl.hpp`, which is not among the sources.  Spec §2 and §4.3: a bounded
FIFO queue of creation requests; "if the bounded queue is full the call fails
immediately rather than blocking".  `front` and `pop` are used by the control loop as
the source shows: `front()` is null on an empty queue. -/
structure RequestQueue where
  capacity : Nat
  items : List request_stream_message
deriving DecidableEq, Repr

namespace RequestQueue

/-- Modelled from the spec: the `push` of the queue type that is not among the sources.
With room left the request is appended; on a full queue the push fails at once, raising
`queue_full`, and enqueues nothing. -/
def push (q : RequestQueue) (m : request_stream_message) : Except push_failure RequestQueue :=
  if q.items.length < q.capacity then .ok { q with items := q.items ++ [m] }
  else .error .queue_full

/-- Oldest request, `none` on an empty queue. -/
def front (q : RequestQueue) : Option request_stream_message := q.items.head?

/-- Removes the oldest request. -/
def pop (q : RequestQueue) : RequestQueue := { q with items := q.items.tail }

end RequestQueue

/-- Fields of `sound_output_impl`, as read and written by `sound_output_impl.cpp`. -/
structure sound_output_impl where
  sampling_rate : Int
  output_alive : Bool
  output_gain : Sample
  device_need_update : Bool
  device_guid : String
  listener_pos : vector
  listener_vel : vector
  listener_front : vector
  listener_up : vector
  requests_queue : RequestQueue
  self : Nat
deriving DecidableEq, Repr

/-- What the control loop does that is visible outside the engine, in order: backend
calls and invocations of completion callbacks with the variant they receive. -/
inductive OutputEvent where
  | bass (call : BassCall)
  | on_creation_callback (cb : Nat) (stream : Except voice_exception stream_impl)

/-- The completion callback an event invokes, if it is such an invocation. -/
def OutputEvent.callback? : OutputEvent → Option Nat
  | .on_creation_callback cb _ => some cb
  | .bass _ => none

/-- The device index a `BASS_SetDevice` event passes, if it is such a call. -/
def OutputEvent.setDevice? : OutputEvent → Option Nat
  | .bass (.SetDevice i) => some i
  | _ => none

namespace sound_output_impl

variable {β : Type}

/-- Model of `sound_output_impl::change_device`. -/
def change_device (s : sound_output_impl) (device_guid : String) : sound_output_impl :=
  if s.device_need_update then s
  else { s with device_guid := device_guid, device_need_update := true }

/-- Model of `sound_output_impl::create_stream(cb)`: the push of the request.  The
function returns `void` and has no handler, so a failure of the push is the failure of
the call and leaves the engine as it was. -/
def create_stream (s : sound_output_impl) (cb : Nat) :
    Except push_failure Unit × sound_output_impl :=
  match s.requests_queue.push ⟨none, cb⟩ with
  | .ok q => (.ok (), { s with requests_queue := q })
  | .error e => (.error e, s)

/-- Model of `sound_output_impl::create_stream(cb, url, file_offset)`. -/
def create_stream_url (s : sound_output_impl) (cb : Nat) (url : String) (file_offset : Nat) :
    Except push_failure Unit × sound_output_impl :=
  match s.requests_queue.push ⟨some ⟨url, file_offset⟩, cb⟩ with
  | .ok q => (.ok (), { s with requests_queue := q })
  | .error e => (.error e, s)

/-- The `for (i = 1u; BASS_GetDeviceInfo(i, &info); i++)` loop of the device-switch step,
over the table entries from index `i` on: the index of the first enabled entry whose
driver is `guid`, at which the loop calls `BASS_SetDevice` and breaks. -/
def find_device (guid : String) : List BASS_DEVICEINFO → Nat → Option Nat
  | [], _ => none
  | info :: rest, i =>
    if info.enabled then
      if guid = info.driver then some i else find_device guid rest (i + 1)
    else find_device guid rest (i + 1)

/-- One switch attempt for identifier `guid`: the lookup, the bind of the device found,
and the `BASS_SetDevice(real_output_device)` that follows when `changed` is false. -/
def switch_attempt (bk : Bass β) (real_output_device : Nat) (b : β) (guid : String) :
    β × List OutputEvent :=
  let r : β × Bool × List OutputEvent :=
    match find_device guid ((bk.devices b).drop 1) 1 with
    | some i => ((bk.BASS_SetDevice b i).1, (bk.BASS_SetDevice b i).2,
        [OutputEvent.bass (.SetDevice i)])
    | none => (b, false, [])
  if !r.2.1 then
    ((bk.BASS_SetDevice r.1 real_output_device).1,
      r.2.2 ++ [OutputEvent.bass (.SetDevice real_output_device)])
  else (r.1, r.2.2)

/-- The device-switch step of the control loop, `if (device_need_update.load()) ...`. -/
def device_switch (bk : Bass β) (real_output_device : Nat) (b : β) (s : sound_output_impl) :
    β × sound_output_impl × List OutputEvent :=
  if s.device_need_update then
    let r := switch_attempt bk real_output_device b s.device_guid
    (r.1, { s with device_need_update := false }, r.2)
  else (b, s, [])

/-- The `try`/`catch` block of the drain step for one request: which constructor runs
and the variant handed to the callback. -/
def construct_stream (bk : Bass β) (init : stream_impl) (b : β) (s : sound_output_impl)
    (msg : request_stream_message) : β × Except voice_exception stream_impl × List BassCall :=
  match msg.params with
  | some params =>
    stream_impl.create_online bk init b s.self params.url params.file_offset s.sampling_rate
  | none => stream_impl.create_local bk init b s.self s.sampling_rate

/-- The `while (true)` loop that drains the request queue, one iteration per unit of
fuel: `front()`, `break` when it is null, construct, invoke the callback, `pop()`.
`none` means the fuel ran out before the `break`.  The completion callbacks are taken
not to call back into the engine. -/
def drain_queue (bk : Bass β) (init : stream_impl) (s : sound_output_impl) :
    Nat → β → RequestQueue → Option (β × RequestQueue × List OutputEvent)
  | 0, _, _ => none
  | fuel + 1, b, q =>
    match q.front with
    | none => some (b, q, [])
    | some msg =>
      let r := construct_stream bk init b s msg
      match drain_queue bk init s fuel r.1 q.pop with
      | none => none
      | some r2 =>
        some (r2.1, r2.2.1, r.2.2.map OutputEvent.bass ++
          [OutputEvent.on_creation_callback msg.on_creation_callback r.2.1] ++ r2.2.2)

/-- The drain step of the control loop; the fuel is one more than the number of queued
requests. -/
def drain_requests (bk : Bass β) (init : stream_impl) (b : β) (s : sound_output_impl) :
    Option (β × sound_output_impl × List OutputEvent) :=
  match drain_queue bk init s (s.requests_queue.items.length + 1) b s.requests_queue with
  | none => none
  | some r => some (r.1, { s with requests_queue := r.2.1 }, r.2.2)

/-- One iteration of the control loop `while (output_alive.load())`, without the sleep:
global volume, listener pose, device switch, queue drain. -/
def loop_iteration (bk : Bass β) (init : stream_impl) (real_output_device : Nat) (b : β)
    (s : sound_output_impl) : Option (β × sound_output_impl × List OutputEvent) :=
  let ev0 := [OutputEvent.bass (.SetConfigGvolStream s.output_gain),
    OutputEvent.bass .Set3DPosition, OutputEvent.bass .Apply3D]
  let r1 := device_switch bk real_output_device b s
  match drain_requests bk init r1.1 r1.2.1 with
  | none => none
  | some r2 => some (r2.1, r2.2.1, ev0 ++ r1.2.2 ++ r2.2.2)

end sound_output_impl

/-- A codec for examples whose encoder counts its calls and fails on the first one
(returned length -1); every later encode returns a packet of 3 bytes. -/
def failFirstCodec : Codec Nat Unit where
  opus_encode_float := fun e _ _ _ => (e + 1, [1, 2, 3], if e = 0 then -1 else 3)
  rnnoise_process_frame := fun _ frame => ((), frame)

/-- A capture session for examples, like `emptySession`, for `failFirstCodec`. -/
def countingSession : sound_input_impl Nat Unit where
  sample_rate_ := 48000
  frames_per_buffer_ := 420
  encoder := 0
  record_handle := 1
  on_voice_input := some 7
  on_raw_voice_input := none
  input_volume_fx := 0
  input_volume := 1
  input_active := false
  rnnoise_active := false
  rnnoise := ()
  encoder_buffer := List.replicate 960 0
  temporary_buffer := { buffer_size := 8192, data := [] }

/-- Two chunks for examples: 1000 samples, then 40. -/
def exampleChunks : List (List Sample) := [List.replicate 1000 0, List.replicate 40 0]

/-- A record backend for examples: starting and pausing the record channel succeed. -/
def okRecord : BassRecord Unit where
  BASS_ChannelPlay := fun _ _ _ => ((), true)
  BASS_ChannelPause := fun _ _ => ((), true)

/-- A record backend for examples whose state counts the calls made: the first call
fails, every later call succeeds. -/
def flakyRecord : BassRecord Nat where
  BASS_ChannelPlay := fun n _ _ => (n + 1, decide (1 ≤ n))
  BASS_ChannelPause := fun n _ => (n + 1, decide (1 ≤ n))

/-- A stream for examples: a local stream on channel 5 with three samples buffered. -/
def exampleStream : stream_impl where
  sample_rate := 48000
  output_impl := 1
  offset_to_set := 0
  stream_handle := 5
  type := stream_type.kLocalDataStream
  decoder := 1
  extra_gain := 1
  output_gain := 1
  position := ⟨0, 0, 0⟩
  velocity := ⟨0, 0, 0⟩
  direction := ⟨0, 0, 0⟩
  min_distance := 0
  max_distance := 0
  rollof_factor := 0
  is_spatial := false
  on_end_cb := none
  ring_buffer := { buffer_size := 8192, data := [11, 12, 13] }

/-- The pair an invocation of a completion callback consists of: the callback and the
variant it receives. -/
def OutputEvent.delivery? : OutputEvent → Option (Nat × Except voice_exception stream_impl)
  | .on_creation_callback cb stream => some (cb, stream)
  | .bass _ => none

/-- What the drain step is to deliver for the queued requests, in the words of the spec:
for each request in queue order, its completion callback with the stream constructed for
it, or with the exception the construction raised. -/
def deliveries {β : Type} (bk : Bass β) (init : stream_impl) (s : sound_output_impl) :
    β → List request_stream_message → List (Nat × Except voice_exception stream_impl)
  | _, [] => []
  | b, msg :: rest =>
    (msg.on_creation_callback, (sound_output_impl.construct_stream bk init b s msg).2.1) ::
      deliveries bk init s (sound_output_impl.construct_stream bk init b s msg).1 rest

/-- A backend state for examples: the current device and the last channel handle given
out. -/
structure DemoBackend where
  device : Nat
  last_handle : Nat
deriving DecidableEq, Repr

/-- A backend for examples.  Device table: entry 0 (which the loops skip), then the
enabled devices "A" and "B"; `BASS_SetDevice` succeeds for the indices of the table.
Channel creation hands out fresh handles and fails for the empty URL; the decoder
factory succeeds. -/
def demoBass : Bass DemoBackend where
  devices := fun _ => [⟨"nosound", true⟩, ⟨"A", true⟩, ⟨"B", true⟩]
  BASS_GetDevice := fun b => b.device
  BASS_SetDevice := fun b i => if i < 3 then ({ b with device := i }, true) else (b, false)
  BASS_StreamCreateURL := fun b url =>
    if url = "" then (b, 0) else ({ b with last_handle := b.last_handle + 1 }, b.last_handle + 1)
  BASS_StreamCreate := fun b _ => ({ b with last_handle := b.last_handle + 1 }, b.last_handle + 1)
  opus_decoder_create := fun b _ => (b, 0, 1)

/-- The backend state of the examples right after initialisation on device 1. -/
def demoBackend : DemoBackend := { device := 1, last_handle := 0 }

/-- A playback engine for examples: no switch pending, empty request queue of capacity
16 as the constructor sets it up. -/
def demoEngine : sound_output_impl where
  sampling_rate := 48000
  output_alive := true
  output_gain := 1
  device_need_update := false
  device_guid := ""
  listener_pos := ⟨0, 0, 0⟩
  listener_vel := ⟨0, 0, 0⟩
  listener_front := ⟨0, 0, 0⟩
  listener_up := ⟨0, 0, 0⟩
  requests_queue := { capacity := 16, items := [] }
  self := 1

/-- The engine of the examples with 16 local-stream requests queued, callbacks 0 to 15. -/
def fullEngine : sound_output_impl :=
  { demoEngine with
    requests_queue := { capacity := 16,
                        items := (List.range 16).map (fun n => ⟨none, n⟩) } }

/-- Whether a delivered variant holds a stream. -/
def holds_stream (r : Except voice_exception stream_impl) : Bool :=
  match r with
  | .ok _ => true
  | .error _ => false

/-- The engine of the examples with two requests queued: a URL request for the empty URL,
callback 1, then a local request, callback 2. -/
def failingThenLocal : sound_output_impl :=
  { demoEngine with
    requests_queue := { capacity := 16, items := [⟨some ⟨"", 0⟩, 1⟩, ⟨none, 2⟩] } }

/-- What a delivered variant holds, for examples: the type, the channel handle and the
pending start offset of the stream, or nothing for an exception. -/
def delivered_stream (r : Except voice_exception stream_impl) :
    Option (stream_type × Nat × Nat) :=
  match r with
  | .ok st => some (st.type, st.stream_handle, st.offset_to_set)
  | .error _ => none

/-- The engine of the examples with four requests queued: a local request (callback 1),
URL requests for "a" at offset 0 (callback 2) and for "b" at offset 30 (callback 3), and
a URL request for the empty URL (callback 4). -/
def mixedRequests : sound_output_impl :=
  { demoEngine with
    requests_queue := { capacity := 16,
                        items := [⟨none, 1⟩, ⟨some ⟨"a", 0⟩, 2⟩, ⟨some ⟨"b", 30⟩, 3⟩,
                          ⟨some ⟨"", 0⟩, 4⟩] } }

/-- The end syncs the sources can have registered for a stream: none, or one on the
channel the stream currently holds. -/
def StreamWorld.syncs_wf {β : Type} (w : StreamWorld β) : Prop :=
  w.end_syncs = [] ∨ w.end_syncs = [w.st.stream_handle]

/-- The world of the examples: the stream the URL constructor returns for "a" on the
backend of the examples (channel 1). -/
def demoOnlineWorld : StreamWorld DemoBackend :=
  match stream_impl.create_online demoBass exampleStream demoBackend 1 "a" 0 48000 with
  | (b, .ok st, calls) => StreamWorld.created b st calls
  | (b, .error _, _) => StreamWorld.created b exampleStream []

/-- What the end-of-stream callback is to receive over a sequence of operations and
signals, in the words of the amended claim: for every end-of-source signal on the channel
that carries the end sync of the stream, one invocation of the callback registered at
that moment (none when no callback is registered), and nothing else. -/
def StreamWorld.expected_callbacks {β : Type} (bk : Bass β) :
    StreamWorld β → List StreamOp → List Nat
  | _, [] => []
  | w, op :: ops =>
    (match op with
      | .sync_end channel =>
        if w.end_syncs = [channel] then
          (match w.st.on_end_cb with
            | some cb => [cb]
            | none => [])
        else []
      | _ => []) ++ StreamWorld.expected_callbacks bk (StreamWorld.step bk w op).1 ops

/-! ## Stream gain and spatial attributes -/

/-- Constant `BASS_3DMODE_NORMAL`, with its value in `bass.h`. -/
def BASS_3DMODE_NORMAL : Nat := 0

/-- Constant `BASS_3DMODE_OFF`, with its value in `bass.h`. -/
def BASS_3DMODE_OFF : Nat := 2

/-- The lambda `vec_convert` of `setup_spatial`: the three coordinates of a vector. -/
def vec_convert (vec : vector) : Sample × Sample × Sample := (vec.x, vec.y, vec.z)

namespace stream_impl

/-- Model of `stream_impl::set_position`. -/
def set_position (st : stream_impl) (pos : vector) : stream_impl := { st with position := pos }

/-- Model of `stream_impl::set_velocity`. -/
def set_velocity (st : stream_impl) (vel : vector) : stream_impl := { st with velocity := vel }

/-- Model of `stream_impl::set_direction`. -/
def set_direction (st : stream_impl) (dir : vector) : stream_impl :=
  { st with direction := dir }

/-- Model of `stream_impl::set_min_distance`. -/
def set_min_distance (st : stream_impl) (distance : Sample) : stream_impl :=
  { st with min_distance := distance }

/-- Model of `stream_impl::set_max_distance`. -/
def set_max_distance (st : stream_impl) (distance : Sample) : stream_impl :=
  { st with max_distance := distance }

/-- Model of `stream_impl::set_rolloff_factor`. -/
def set_rolloff_factor (st : stream_impl) (rolloff : Sample) : stream_impl :=
  { st with rollof_factor := rolloff }

/-- Model of `stream_impl::setup_spatial`: the backend calls it makes. -/
def setup_spatial (st : stream_impl) : List BassCall :=
  if !st.is_spatial then
    [BassCall.ChannelSet3DAttributes st.stream_handle BASS_3DMODE_OFF 0 0 (-1) (-1) 0,
      BassCall.Apply3D]
  else
    [BassCall.ChannelSet3DAttributes st.stream_handle BASS_3DMODE_NORMAL st.min_distance
        st.max_distance (-1) (-1) (-1),
      BassCall.ChannelSet3DPosition st.stream_handle (vec_convert st.position)
        (vec_convert st.direction) (vec_convert st.velocity),
      BassCall.Apply3D]

/-- Model of `stream_impl::set_spatial_state`. -/
def set_spatial_state (st : stream_impl) (spatial_state : Bool) : stream_impl × List BassCall :=
  if st.is_spatial = spatial_state then (st, [])
  else
    ({ st with is_spatial := spatial_state },
      ({ st with is_spatial := spatial_state } : stream_impl).setup_spatial)

/-- Model of `stream_impl::update`. -/
def update (st : stream_impl) : List BassCall := st.setup_spatial

/-- Model of `stream_impl::set_gain`. -/
def set_gain (st : stream_impl) (gain : Sample) : stream_impl × List BassCall :=
  ({ st with output_gain := gain }, [BassCall.ChannelSetVol st.stream_handle gain])

/-- Model of `stream_impl::mute_stream`. -/
def mute_stream (st : stream_impl) : List BassCall :=
  [BassCall.ChannelSetVol st.stream_handle 0]

/-- Model of `stream_impl::unmute_stream`. -/
def unmute_stream (st : stream_impl) : List BassCall :=
  [BassCall.ChannelSetVol st.stream_handle st.output_gain]

end stream_impl

/-- The calls of the gain claim. -/
inductive GainOp where
  | set_gain (gain : Sample)
  | mute_stream
  | unmute_stream
deriving DecidableEq, Repr

/-- One call on the stream: the stream after it and the backend calls it makes. -/
def gain_step (st : stream_impl) : GainOp → stream_impl × List BassCall
  | .set_gain gain => st.set_gain gain
  | .mute_stream => (st, st.mute_stream)
  | .unmute_stream => (st, st.unmute_stream)

/-- A sequence of calls: the stream after it and all backend calls, in order. -/
def gain_run : stream_impl → List GainOp → stream_impl × List BassCall
  | st, [] => (st, [])
  | st, op :: ops =>
    ((gain_run (gain_step st op).1 ops).1, (gain_step st op).2 ++ (gain_run (gain_step st op).1 ops).2)

/-- The channel volume the backend holds after the calls: the value of the last
`BASS_ChannelSetAttribute(.., BASS_ATTRIB_VOL, ..)`, if there is one. -/
def channel_volume (calls : List BassCall) : Option Sample :=
  calls.foldl (fun acc call =>
    match call with
    | .ChannelSetVol _ v => some v
    | _ => acc) none

/-- The most recent gain passed to `set_gain` in a sequence of calls. -/
def last_set_gain : List GainOp → Option Sample
  | [] => none
  | op :: ops =>
    match last_set_gain ops with
    | some g => some g
    | none =>
      match op with
      | .set_gain g => some g
      | _ => none

/-- The most recent non-zero gain passed to `set_gain` in a sequence of calls, in the
words of the claim. -/
def last_nonzero_gain : List GainOp → Option Sample
  | [] => none
  | op :: ops =>
    match last_nonzero_gain ops with
    | some g => some g
    | none =>
      match op with
      | .set_gain g => if g ≠ 0 then some g else none
      | _ => none

/-- A stream for examples: `exampleStream` in spatial mode, with its attributes set. -/
def spatialStream : stream_impl :=
  { exampleStream with
    is_spatial := true, position := ⟨1, 2, 3⟩, velocity := ⟨4, 5, 6⟩, direction := ⟨7, 8, 9⟩,
    min_distance := 10, max_distance := 20, rollof_factor := 30 }

/-! ## Capture: raw callback and denoise histories -/

/-- Whether the event is an invocation of the raw-input callback. -/
def InputEvent.isRawInput : InputEvent → Bool
  | .raw_voice_input _ _ _ _ => true
  | _ => false

/-- Whether the event is the write of the chunk into the ring buffer. -/
def InputEvent.isWriteBuff : InputEvent → Bool
  | .write_buff _ => true
  | _ => false

/-- The peak amplitude of a chunk in the words of the claim: the largest absolute sample
value. -/
def peak_amplitude (chunk : List Sample) : Option Nat := (chunk.map Int.natAbs).max?

/-- A capture session for examples: `emptySession` with the raw-input callback 4
registered. -/
def rawSession : sound_input_impl Unit Unit := { emptySession with on_raw_voice_input := some 4 }

namespace sound_input_impl

variable {E D : Type}

/-- The `toggle_rnnoise` calls made before one capture callback, applied in order. -/
def apply_toggles (s : sound_input_impl E D) (toggles : List Bool) : sound_input_impl E D :=
  toggles.foldl toggle_rnnoise s

/-- Delivers the chunks one after the other under a history of `toggle_rnnoise` calls:
`history k` lists the calls made before callback number `k`.  Returns, for each
callback, the number of encode calls it made and the number of samples buffered
after it. -/
def process_history (c : Codec E D) (history : Nat → List Bool) :
    Nat → sound_input_impl E D → List (List Sample) → Option (List (Nat × Nat))
  | _, _, [] => some []
  | k, s, chunk :: rest =>
    match process_input c (apply_toggles s (history k)) chunk with
    | none => none
    | some (s1, ev) =>
      match process_history c history (k + 1) s1 rest with
      | none => none
      | some stats => some ((encode_calls ev, s1.temporary_buffer.readAvailable) :: stats)

end sound_input_impl

/-- A capture session for examples: `emptySession` with its input active. -/
def activeSession : sound_input_impl Unit Unit := { emptySession with input_active := true }

/-! # Theorems -/

section Capture

open sound_input_impl

variable {E D : Type}

theorem encode_calls_append (a b : List InputEvent) :
    encode_calls (a ++ b) = encode_calls a + encode_calls b := by
  simp [encode_calls]

theorem denoise_frame_buffer (c : Codec E D) (s : sound_input_impl E D) :
    (denoise_frame c s).1.temporary_buffer = s.temporary_buffer := by
  unfold denoise_frame; split <;> rfl

theorem denoise_frame_encode_calls (c : Codec E D) (s : sound_input_impl E D) :
    encode_calls (denoise_frame c s).2 = 0 := by
  unfold denoise_frame; split <;> rfl

theorem encode_frame_buffer (c : Codec E D) (s : sound_input_impl E D) (n : Nat) :
    (encode_frame c s n).1.temporary_buffer = s.temporary_buffer := by
  cases hv : s.on_voice_input <;> simp only [encode_frame, hv] <;> split_ifs <;> rfl

theorem encode_frame_encode_calls (c : Codec E D) (s : sound_input_impl E D) (n : Nat) :
    encode_calls (encode_frame c s n).2.1 = 1 := by
  cases hv : s.on_voice_input <;> simp only [encode_frame, hv] <;> split_ifs <;> rfl

theorem encode_frame_continues (c : Codec E D) (hc : c.encode_succeeds)
    (s : sound_input_impl E D) (n : Nat) : (encode_frame c s n).2.2 = false := by
  have h1 := (hc s.encoder s.encoder_buffer n kPacketMaxSize).1
  have h2 := (hc s.encoder s.encoder_buffer n kPacketMaxSize).2
  cases hv : s.on_voice_input <;> simp only [encode_frame, hv] <;> split_ifs with h <;>
    first | rfl | (exfalso; omega)

theorem drain_frame_buffer (c : Codec E D) (s : sound_input_impl E D) (ev : List InputEvent) :
    (drain_frame c s ev).1.temporary_buffer = (s.temporary_buffer.readBuff kOpusFrameSize).1 := by
  simp [drain_frame, encode_frame_buffer, denoise_frame_buffer, read_frame]

theorem drain_frame_encode_calls (c : Codec E D) (s : sound_input_impl E D)
    (ev : List InputEvent) :
    encode_calls (drain_frame c s ev).2.1 = encode_calls ev + 1 := by
  simp [drain_frame, encode_calls_append, encode_frame_encode_calls, denoise_frame_encode_calls]

theorem drain_frame_continues (c : Codec E D) (hc : c.encode_succeeds)
    (s : sound_input_impl E D) (ev : List InputEvent) :
    (drain_frame c s ev).2.2 = false := by
  simp [drain_frame, encode_frame_continues c hc]

theorem drain_loop_counts (c : Codec E D) (hc : c.encode_succeeds) :
    ∀ (fuel : Nat) (s : sound_input_impl E D) (ev : List InputEvent),
      s.temporary_buffer.readAvailable / kOpusFrameSize < fuel →
      ∃ s1 ev1, drain_loop c fuel s ev = some (s1, ev1) ∧
        s1.temporary_buffer.readAvailable = s.temporary_buffer.readAvailable % kOpusFrameSize ∧
        s1.temporary_buffer.buffer_size = s.temporary_buffer.buffer_size ∧
        encode_calls ev1 = encode_calls ev + s.temporary_buffer.readAvailable / kOpusFrameSize := by
  intro fuel
  induction fuel with
  | zero => intro s ev h; exact absurd h (Nat.not_lt_zero _)
  | succ n ih =>
    intro s ev h
    unfold drain_loop
    by_cases hge : s.temporary_buffer.readAvailable ≥ kOpusFrameSize
    · simp only [hge, if_true, drain_frame_continues c hc]
      have hlen : (drain_frame c s ev).1.temporary_buffer.readAvailable
          = s.temporary_buffer.readAvailable - kOpusFrameSize := by
        rw [drain_frame_buffer]
        simp only [Ringbuffer.readBuff, Ringbuffer.readAvailable, List.length_drop] at hge ⊢
        rw [Nat.min_eq_left hge]
      have hsz : (drain_frame c s ev).1.temporary_buffer.buffer_size
          = s.temporary_buffer.buffer_size := by
        rw [drain_frame_buffer]; rfl
      have hcalls := drain_frame_encode_calls c s ev
      have hfuel : (drain_frame c s ev).1.temporary_buffer.readAvailable / kOpusFrameSize < n := by
        rw [hlen]; simp only [kOpusFrameSize] at *; omega
      obtain ⟨s1, ev1, h1, h2, h3, h4⟩ := ih (drain_frame c s ev).1 (drain_frame c s ev).2.1 hfuel
      refine ⟨s1, ev1, by simpa using h1, ?_, ?_, ?_⟩
      · rw [h2, hlen]; simp only [kOpusFrameSize] at *; omega
      · rw [h3, hsz]
      · rw [h4, hcalls, hlen]; simp only [kOpusFrameSize] at *; omega
    · refine ⟨s, ev, by simp [hge], ?_, rfl, ?_⟩ <;>
        (simp only [kOpusFrameSize] at *; omega)

theorem process_input_counts (c : Codec E D) (hc : c.encode_succeeds)
    (s : sound_input_impl E D) (chunk : List Sample)
    (hfit : chunk.length ≤ s.temporary_buffer.writeAvailable) :
    ∃ s1 ev1, process_input c s chunk = some (s1, ev1) ∧
      s1.temporary_buffer.readAvailable
        = (s.temporary_buffer.readAvailable + chunk.length) % kOpusFrameSize ∧
      s1.temporary_buffer.buffer_size = s.temporary_buffer.buffer_size ∧
      encode_calls ev1 = (s.temporary_buffer.readAvailable + chunk.length) / kOpusFrameSize := by
  have hw : ((s.temporary_buffer.writeBuff chunk chunk.length).1).readAvailable
      = s.temporary_buffer.readAvailable + chunk.length := by
    simp only [Ringbuffer.writeBuff, Ringbuffer.readAvailable, List.length_append,
      List.length_take, Nat.min_eq_left hfit, Nat.min_self]
  have hev : ∀ (o : Option Nat) (n : Nat), encode_calls ((match o with
      | some cb => [InputEvent.raw_voice_input cb chunk chunk.length chunk.max?]
      | none => []) ++ [InputEvent.write_buff n]) = 0 := by
    intro o n; cases o <;> rfl
  obtain ⟨s1, ev1, h1, h2, h3, h4⟩ := drain_loop_counts c hc
    (((s.temporary_buffer.writeBuff chunk chunk.length).1).readAvailable / kOpusFrameSize + 1)
    { s with temporary_buffer := (s.temporary_buffer.writeBuff chunk chunk.length).1 }
    ((match s.on_raw_voice_input with
      | some cb => [InputEvent.raw_voice_input cb chunk chunk.length chunk.max?]
      | none => []) ++ [InputEvent.write_buff (s.temporary_buffer.writeBuff chunk chunk.length).2])
    (Nat.lt_succ_self _)
  refine ⟨s1, ev1, h1, ?_, ?_, ?_⟩
  · rw [h2, hw]
  · rw [h3]; rfl
  · rw [h4, hev, hw, Nat.zero_add]

theorem process_inputs_counts (c : Codec E D) (hc : c.encode_succeeds) :
    ∀ (chunks : List (List Sample)) (s : sound_input_impl E D),
      s.temporary_buffer.readAvailable < kOpusFrameSize →
      chunks_fit c s chunks = true →
      ∃ s1 evs, process_inputs c s chunks = some (s1, evs) ∧
        (evs.map encode_calls).sum
          = (s.temporary_buffer.readAvailable + (chunks.map List.length).sum) / kOpusFrameSize ∧
        s1.temporary_buffer.readAvailable
          = (s.temporary_buffer.readAvailable + (chunks.map List.length).sum) % kOpusFrameSize := by
  intro chunks
  induction chunks with
  | nil =>
    intro s hlt _
    refine ⟨s, [], rfl, ?_, ?_⟩ <;>
      (simp only [List.map_nil, List.sum_nil, kOpusFrameSize] at *; omega)
  | cons ch rest ih =>
    intro s hlt hfit
    simp only [chunks_fit, Bool.and_eq_true, decide_eq_true_eq] at hfit
    obtain ⟨s1, ev1, h1, h2, _, h4⟩ := process_input_counts c hc s ch hfit.1
    rw [h1] at hfit
    have hlt1 : s1.temporary_buffer.readAvailable < kOpusFrameSize := by
      rw [h2]; exact Nat.mod_lt _ (by decide)
    obtain ⟨s2, evs, g1, g2, g3⟩ := ih s1 hlt1 hfit.2
    refine ⟨s2, ev1 :: evs, by simp [process_inputs, h1, g1], ?_, ?_⟩
    · simp only [List.map_cons, List.sum_cons, g2, h4, h2, kOpusFrameSize] at *
      omega
    · simp only [List.map_cons, List.sum_cons, g3, h2, kOpusFrameSize] at *
      omega

theorem chunks_fit_take (c : Codec E D) :
    ∀ (chunks : List (List Sample)) (s : sound_input_impl E D) (k : Nat),
      chunks_fit c s chunks = true → chunks_fit c s (chunks.take k) = true := by
  intro chunks
  induction chunks with
  | nil => intro s k h; simpa using h
  | cons ch rest ih =>
    intro s k h
    cases k with
    | zero => rfl
    | succ k =>
      simp only [List.take_succ_cons, chunks_fit, Bool.and_eq_true] at h ⊢
      refine ⟨h.1, ?_⟩
      cases hp : process_input c s ch with
      | none => rw [hp] at h; exact absurd h.2 (by simp)
      | some r =>
        rw [hp] at h
        exact ih r.1 k h.2

theorem process_inputs_take (c : Codec E D) :
    ∀ (chunks : List (List Sample)) (s s1 : sound_input_impl E D)
      (evs : List (List InputEvent)) (k : Nat),
      process_inputs c s chunks = some (s1, evs) →
      ∃ sk, process_inputs c s (chunks.take k) = some (sk, evs.take k) := by
  intro chunks
  induction chunks with
  | nil =>
    intro s s1 evs k h
    simp only [process_inputs, Option.some.injEq, Prod.mk.injEq] at h
    exact ⟨s, by simp [process_inputs, ← h.2]⟩
  | cons ch rest ih =>
    intro s s1 evs k h
    cases k with
    | zero => exact ⟨s, by simp [process_inputs]⟩
    | succ k =>
      simp only [process_inputs] at h
      cases hp : process_input c s ch with
      | none => rw [hp] at h; exact absurd h (by simp)
      | some r =>
        obtain ⟨s2, ev⟩ := r
        rw [hp] at h
        simp only at h
        cases hq : process_inputs c s2 rest with
        | none => rw [hq] at h; exact absurd h (by simp)
        | some q =>
          obtain ⟨s3, evs3⟩ := q
          rw [hq] at h
          simp only [Option.some.injEq, Prod.mk.injEq] at h
          obtain ⟨sk, hk⟩ := ih s2 s3 evs3 k hq
          refine ⟨sk, ?_⟩
          simp only [List.take_succ_cons, process_inputs, hp, hk, ← h.2]

/-- C1.  Frame chunking.  A session whose ring buffer starts empty receives the chunks
`chunks` one after the other, each fitting into the free space of the ring buffer at its
arrival, with a codec whose every encode succeeds.  Then `process_input` returns for
every chunk, and after each chunk (after the first `k` chunks, for every `k`) the
cumulative number of `opus_encode_float` calls is the number of samples delivered so far
divided by 960, rounded down, and the number of samples left in the ring buffer is that
total modulo 960, which is below 960.  In particular, with the capacity 8192 of the
source, a chunk of 2000 samples gives exactly 2 encode calls and leaves 80 samples
buffered, and 40 further samples give no further encode call and leave 120 buffered. -/
theorem frame_chunking (c : Codec E D) (hc : c.encode_succeeds)
    (s : sound_input_impl E D) (hs : s.temporary_buffer.data = [])
    (chunks : List (List Sample)) (hfit : chunks_fit c s chunks = true) :
    (∃ s1 evs, process_inputs c s chunks = some (s1, evs) ∧
      ∀ k : Nat, ∃ sk, process_inputs c s (chunks.take k) = some (sk, evs.take k) ∧
        ((evs.take k).map encode_calls).sum
          = ((chunks.take k).map List.length).sum / kOpusFrameSize ∧
        sk.temporary_buffer.readAvailable
          = ((chunks.take k).map List.length).sum % kOpusFrameSize ∧
        sk.temporary_buffer.readAvailable < kOpusFrameSize) ∧
    (s.temporary_buffer.buffer_size = 8192 →
      ∀ a b : List Sample, a.length = 2000 → b.length = 40 →
        ∃ s1 ev1 s2 ev2, process_input c s a = some (s1, ev1) ∧
          encode_calls ev1 = 2 ∧ s1.temporary_buffer.readAvailable = 80 ∧
          process_input c s1 b = some (s2, ev2) ∧
          encode_calls ev2 = 0 ∧ s2.temporary_buffer.readAvailable = 120) := by
  have h0 : s.temporary_buffer.readAvailable = 0 := by
    simp [Ringbuffer.readAvailable, hs]
  constructor
  · obtain ⟨s1, evs, h1, -, -⟩ :=
      process_inputs_counts c hc chunks s (by rw [h0]; decide) hfit
    refine ⟨s1, evs, h1, fun k => ?_⟩
    obtain ⟨sk, hk⟩ := process_inputs_take c chunks s s1 evs k h1
    obtain ⟨sk2, evk, g1, g2, g3⟩ :=
      process_inputs_counts c hc (chunks.take k) s (by rw [h0]; decide)
        (chunks_fit_take c chunks s k hfit)
    rw [hk] at g1
    simp only [Option.some.injEq, Prod.mk.injEq] at g1
    obtain ⟨rfl, rfl⟩ := g1
    rw [h0, Nat.zero_add] at g2 g3
    exact ⟨sk, hk, g2, g3, by rw [g3]; exact Nat.mod_lt _ (by decide)⟩
  · intro hsz a b ha hb
    obtain ⟨s1, ev1, h1, h2, h3, h4⟩ := process_input_counts c hc s a
      (by simp [Ringbuffer.writeAvailable, hs, hsz, ha])
    have h2a : s1.temporary_buffer.readAvailable = 80 := by
      rw [h2, h0, ha]; rfl
    obtain ⟨s2, ev2, g1, g2, g3, g4⟩ := process_input_counts c hc s1 b
      (by
        have : s1.temporary_buffer.data.length = 80 := h2a
        simp [Ringbuffer.writeAvailable, h3, hsz, hb, this])
    refine ⟨s1, ev1, s2, ev2, h1, ?_, h2a, g1, ?_, ?_⟩
    · rw [h4, h0, ha]; rfl
    · rw [g4, h2a, hb]; rfl
    · rw [g2, h2a, hb]; rfl

theorem okCodec_encode_succeeds : okCodec.encode_succeeds :=
  fun _ _ _ _ => ⟨(by decide : (0 : Int) ≤ 3), (by decide : (3 : Int) ≤ 32768)⟩

set_option maxRecDepth 20000 in
theorem frame_chunking_witness :
    okCodec.encode_succeeds ∧ emptySession.temporary_buffer.data = [] ∧
    chunks_fit okCodec emptySession exampleChunks = true ∧
    ∃ s1 evs, process_inputs okCodec emptySession exampleChunks = some (s1, evs) ∧
      ∀ k : Nat, ∃ sk, process_inputs okCodec emptySession (exampleChunks.take k)
            = some (sk, evs.take k) ∧
        ((evs.take k).map encode_calls).sum
          = ((exampleChunks.take k).map List.length).sum / kOpusFrameSize ∧
        sk.temporary_buffer.readAvailable
          = ((exampleChunks.take k).map List.length).sum % kOpusFrameSize ∧
        sk.temporary_buffer.readAvailable < kOpusFrameSize :=
  ⟨okCodec_encode_succeeds, rfl, by decide,
    (frame_chunking okCodec okCodec_encode_succeeds emptySession rfl exampleChunks
      (by decide)).1⟩

set_option maxRecDepth 10000 in
/-- C5 (the behaviour of the code at a failing input).  A chunk of 1920 samples, two full
frames, arrives at a session with an empty ring buffer whose encoder fails on the first
frame: `process_input` makes one encode call, invokes no encoded-packet callback, and
returns with 960 samples, a full frame, still in the ring buffer. -/
theorem failed_encode_stops_drain (chunk : List Sample) (h : chunk.length = 1920) :
    (process_input failFirstCodec countingSession chunk).map
      (fun r => (r.1.temporary_buffer.readAvailable, encode_calls r.2, voice_callbacks r.2))
      = some (960, 1, 0) := by
  simp [process_input, drain_loop, drain_frame, read_frame, denoise_frame, encode_frame,
    Ringbuffer.writeBuff, Ringbuffer.readBuff, Ringbuffer.readAvailable,
    Ringbuffer.writeAvailable, failFirstCodec, countingSession, kOpusFrameSize, kPacketMaxSize,
    encode_calls, voice_callbacks, InputEvent.isEncode, InputEvent.isVoiceInput, h]

theorem failed_encode_stops_drain_witness :
    (List.replicate 1920 (0 : Sample)).length = 1920 ∧
    (process_input failFirstCodec countingSession (List.replicate 1920 0)).map
      (fun r => (r.1.temporary_buffer.readAvailable, encode_calls r.2, voice_callbacks r.2))
      = some (960, 1, 0) :=
  ⟨List.length_replicate _ _, failed_encode_stops_drain _ (List.length_replicate _ _)⟩

/-- C10, counterexample.  On a backend whose first `BASS_ChannelPlay` fails and whose
second succeeds, one `enable_input` leaves the session inactive and two calls in a row
leave it active; likewise one `disable_input` on an active session leaves it active
and two in a row leave it inactive: twice is not the same as once. -/
theorem repeated_toggle_can_differ :
    (enable_input flakyRecord 0 emptySession).2.1.input_active = false ∧
    (enable_input flakyRecord (enable_input flakyRecord 0 emptySession).2.2.2
      (enable_input flakyRecord 0 emptySession).2.1).2.1.input_active = true ∧
    (enable_input flakyRecord (enable_input flakyRecord 0 emptySession).2.2.2
      (enable_input flakyRecord 0 emptySession).2.1).2.1
      ≠ (enable_input flakyRecord 0 emptySession).2.1 ∧
    (disable_input flakyRecord (disable_input flakyRecord 0 activeSession).2.2.2
      (disable_input flakyRecord 0 activeSession).2.1).2.1
      ≠ (disable_input flakyRecord 0 activeSession).2.1 := by
  decide

/-- C10, amended.  `enable_input` on a session whose input is already active, and
`disable_input` on a session whose input is already inactive, return `false`, issue no
backend call and leave the session (and the backend) unchanged; hence, after an
`enable_input` that left the session active, a second `enable_input` in a row changes
nothing, and after a `disable_input` that left the session inactive, a second
`disable_input` in a row changes nothing.  A call whose backend request failed leaves
the session as it was. -/
theorem toggle_input_noop {β : Type} (bk : BassRecord β) (b : β) (s : sound_input_impl E D) :
    (s.input_active = true → enable_input bk b s = (false, s, [], b)) ∧
    (s.input_active = false → disable_input bk b s = (false, s, [], b)) ∧
    ((enable_input bk b s).2.1.input_active = true →
      enable_input bk (enable_input bk b s).2.2.2 (enable_input bk b s).2.1
        = (false, (enable_input bk b s).2.1, [], (enable_input bk b s).2.2.2)) ∧
    ((disable_input bk b s).2.1.input_active = false →
      disable_input bk (disable_input bk b s).2.2.2 (disable_input bk b s).2.1
        = (false, (disable_input bk b s).2.1, [], (disable_input bk b s).2.2.2)) ∧
    ((enable_input bk b s).2.1.input_active = false → (enable_input bk b s).2.1 = s) ∧
    ((disable_input bk b s).2.1.input_active = true → (disable_input bk b s).2.1 = s) := by
  have h1 : ∀ (b0 : β) (t : sound_input_impl E D), t.input_active = true →
      enable_input bk b0 t = (false, t, [], b0) := fun b0 t h => by simp [enable_input, h]
  have h2 : ∀ (b0 : β) (t : sound_input_impl E D), t.input_active = false →
      disable_input bk b0 t = (false, t, [], b0) := fun b0 t h => by simp [disable_input, h]
  refine ⟨h1 b s, h2 b s, fun h => h1 _ _ h, fun h => h2 _ _ h, ?_, ?_⟩
  · cases ha : s.input_active <;> by_cases hh : s.record_handle = 0 <;>
      cases hp : (bk.BASS_ChannelPlay b s.record_handle false).2 <;>
      simp [enable_input, ha, hh, hp]
    cases s; simp_all
  · cases ha : s.input_active <;> by_cases hh : s.record_handle = 0 <;>
      cases hp : (bk.BASS_ChannelPause b s.record_handle).2 <;>
      simp [disable_input, ha, hh, hp]
    cases s; simp_all

theorem toggle_input_noop_witness :
    emptySession.input_active = false ∧
    disable_input okRecord () emptySession = (false, emptySession, [], ()) ∧
    (enable_input okRecord () emptySession).2.1.input_active = true ∧
    enable_input okRecord (enable_input okRecord () emptySession).2.2.2
        (enable_input okRecord () emptySession).2.1
      = (false, (enable_input okRecord () emptySession).2.1, [],
          (enable_input okRecord () emptySession).2.2.2) :=
  ⟨rfl, (toggle_input_noop okRecord () emptySession).2.1 rfl, rfl,
    (toggle_input_noop okRecord () emptySession).2.2.1 rfl⟩

end Capture

namespace stream_impl

/-- C2.  The pull callback.  With `M` samples buffered and a pull of `length` bytes
(`R = length / 4` samples, `length` a `DWORD`), `process_output` returns 0 and changes
nothing when `M = 0`; returns `length` and removes exactly the `R` oldest samples when
`M ≥ R` (the buffer being non-empty, or `length` a whole number of samples); and returns
`4 * M` and removes the `M` buffered samples, oldest first, when `0 < M < R`.  It never
returns more than `length`, and the only field of the stream it changes is the ring
buffer, whose capacity it keeps. -/
theorem process_output_cases (st : stream_impl) (length : Nat) (hlen : length < 2 ^ 32) :
    (st.ring_buffer.readAvailable = 0 → st.process_output length = (0, [], st)) ∧
    (length / 4 ≤ st.ring_buffer.readAvailable →
      (0 < st.ring_buffer.readAvailable ∨ length % 4 = 0) →
      (st.process_output length).1 = length ∧
      (st.process_output length).2.1 = st.ring_buffer.data.take (length / 4) ∧
      (st.process_output length).2.1.length = length / 4 ∧
      (st.process_output length).2.2.ring_buffer.data = st.ring_buffer.data.drop (length / 4)) ∧
    (0 < st.ring_buffer.readAvailable → st.ring_buffer.readAvailable < length / 4 →
      (st.process_output length).1 = 4 * st.ring_buffer.readAvailable ∧
      (st.process_output length).2.1 = st.ring_buffer.data ∧
      (st.process_output length).2.2.ring_buffer.data = []) ∧
    (st.process_output length).1 ≤ length ∧
    (st.process_output length).2.2
      = { st with ring_buffer := (st.process_output length).2.2.ring_buffer } ∧
    (st.process_output length).2.2.ring_buffer.buffer_size = st.ring_buffer.buffer_size := by
  by_cases h0 : st.ring_buffer.data.length = 0
  · have hnil : st.ring_buffer.data = [] := List.length_eq_zero.mp h0
    simp [process_output, Ringbuffer.isEmpty, Ringbuffer.readAvailable, h0, hnil]
    try omega
  · by_cases hge : length / 4 ≤ st.ring_buffer.data.length
    · simp [process_output, Ringbuffer.isEmpty, Ringbuffer.readAvailable, Ringbuffer.readBuff,
        h0, hge]
      try omega
    · have hlt : st.ring_buffer.data.length < length / 4 := by omega
      have hm : st.ring_buffer.data.length * 4 % 4294967296 = st.ring_buffer.data.length * 4 := by
        apply Nat.mod_eq_of_lt; omega
      simp [process_output, Ringbuffer.isEmpty, Ringbuffer.readAvailable, Ringbuffer.readBuff,
        h0, hge, hm]
      omega

theorem process_output_cases_witness :
    (20 : Nat) < 2 ^ 32 ∧ 0 < exampleStream.ring_buffer.readAvailable ∧
    exampleStream.ring_buffer.readAvailable < 20 / 4 ∧
    (exampleStream.process_output 20).1 = 4 * exampleStream.ring_buffer.readAvailable ∧
    (exampleStream.process_output 20).2.1 = exampleStream.ring_buffer.data ∧
    (exampleStream.process_output 20).2.2.ring_buffer.data = [] :=
  ⟨by decide, by decide, by decide,
    (process_output_cases exampleStream 20 (by decide)).2.2.1 (by decide) (by decide)⟩

end stream_impl

namespace sound_output_impl
variable {β : Type}

theorem drain_queue_spec (bk : Bass β) (init : stream_impl) (s : sound_output_impl) (cap : Nat) :
    ∀ (items : List request_stream_message) (fuel : Nat) (b : β), items.length < fuel →
      ∃ b1 ev, drain_queue bk init s fuel b ⟨cap, items⟩ = some (b1, ⟨cap, []⟩, ev) ∧
        ev.filterMap OutputEvent.callback? = items.map (fun m => m.on_creation_callback) ∧
        ev.filterMap OutputEvent.delivery? = deliveries bk init s b items := by
  intro items
  induction items with
  | nil =>
    intro fuel b h
    cases fuel with
    | zero => exact absurd h (Nat.not_lt_zero _)
    | succ n => exact ⟨b, [], rfl, rfl, rfl⟩
  | cons msg rest ih =>
    intro fuel b h
    cases fuel with
    | zero => exact absurd h (Nat.not_lt_zero _)
    | succ n =>
      have hn : rest.length < n := by simpa using h
      obtain ⟨b1, ev, h1, h2, h3⟩ := ih n (construct_stream bk init b s msg).1 hn
      have hpop : RequestQueue.pop ⟨cap, msg :: rest⟩ = ⟨cap, rest⟩ := rfl
      refine ⟨b1, (construct_stream bk init b s msg).2.2.map OutputEvent.bass ++
          [OutputEvent.on_creation_callback msg.on_creation_callback
            (construct_stream bk init b s msg).2.1] ++ ev, ?_, ?_, ?_⟩
      · simp only [drain_queue, RequestQueue.front, List.head?_cons, hpop, h1]
      · simp [List.filterMap_append, OutputEvent.callback?, h2, List.filterMap_map,
          Function.comp_def]
      · simp [List.filterMap_append, OutputEvent.delivery?, h3, List.filterMap_map,
          Function.comp_def, deliveries]

theorem device_switch_queue (bk : Bass β) (real : Nat) (b : β) (s : sound_output_impl) :
    (device_switch bk real b s).2.1.requests_queue = s.requests_queue ∧
    (device_switch bk real b s).2.1.self = s.self ∧
    (device_switch bk real b s).2.1.sampling_rate = s.sampling_rate := by
  unfold device_switch; split <;> simp

theorem switch_attempt_callbacks (bk : Bass β) (real : Nat) (b : β) (g : String) :
    (switch_attempt bk real b g).2.filterMap OutputEvent.callback? = [] := by
  unfold switch_attempt
  cases find_device g ((bk.devices b).drop 1) 1 <;> simp only <;> split <;>
    simp [OutputEvent.callback?]

theorem device_switch_callbacks (bk : Bass β) (real : Nat) (b : β) (s : sound_output_impl) :
    (device_switch bk real b s).2.2.filterMap OutputEvent.callback? = [] := by
  unfold device_switch; split
  · exact switch_attempt_callbacks bk real b s.device_guid
  · rfl

theorem drain_requests_spec (bk : Bass β) (init : stream_impl) (b : β) (s : sound_output_impl) :
    ∃ b1 s1 ev, drain_requests bk init b s = some (b1, s1, ev) ∧
      s1.requests_queue.items = [] ∧
      ev.filterMap OutputEvent.callback?
        = s.requests_queue.items.map (fun m => m.on_creation_callback) ∧
      ev.filterMap OutputEvent.delivery? = deliveries bk init s b s.requests_queue.items := by
  obtain ⟨b1, ev, h1, h2, h3⟩ := drain_queue_spec bk init s s.requests_queue.capacity
    s.requests_queue.items (s.requests_queue.items.length + 1) b (Nat.lt_succ_self _)
  refine ⟨b1, { s with requests_queue := ⟨s.requests_queue.capacity, []⟩ }, ev, ?_, rfl, h2, h3⟩
  simp only [drain_requests, h1]

theorem loop_iteration_spec (bk : Bass β) (init : stream_impl) (real : Nat) (b : β)
    (s : sound_output_impl) :
    ∃ b1 s1 ev, loop_iteration bk init real b s = some (b1, s1, ev) ∧
      s1.requests_queue.items = [] ∧
      ev.filterMap OutputEvent.callback?
        = s.requests_queue.items.map (fun m => m.on_creation_callback) := by
  obtain ⟨b1, s1, ev, h1, h2, h3, -⟩ :=
    drain_requests_spec bk init (device_switch bk real b s).1 (device_switch bk real b s).2.1
  refine ⟨b1, s1, [OutputEvent.bass (.SetConfigGvolStream s.output_gain),
    OutputEvent.bass .Set3DPosition, OutputEvent.bass .Apply3D]
      ++ (device_switch bk real b s).2.2 ++ ev, ?_, h2, ?_⟩
  · simp only [loop_iteration, h1]
  · simp [List.filterMap_append, device_switch_callbacks, h3, (device_switch_queue bk real b s).1,
      OutputEvent.callback?]

/-- C3.  Creation order.  Whatever requests are queued, one iteration of the control loop
returns, invokes the completion callback of every queued request exactly once, in queue
order (the list of callbacks invoked is the list of callbacks of the queue), and leaves
the queue empty.  In particular a local request, a URL request at offset 0 and a URL
request at offset 30, enqueued in that order by `create_stream` on an empty queue of
capacity 16, have their three callbacks invoked in that order by one iteration. -/
theorem creation_callbacks_fifo (bk : Bass β) (init : stream_impl) (real : Nat) (b : β)
    (s : sound_output_impl) :
    (∃ b1 s1 ev, loop_iteration bk init real b s = some (b1, s1, ev) ∧
      ev.filterMap OutputEvent.callback?
        = s.requests_queue.items.map (fun m => m.on_creation_callback) ∧
      s1.requests_queue.items = []) ∧
    (∀ (c1 c2 c3 : Nat) (u v : String),
      s.requests_queue.items = [] → s.requests_queue.capacity = 16 →
      ((create_stream_url (create_stream_url (create_stream s c1).2 c2 u 0).2 c3 v 30).2
          ).requests_queue.items
        = [⟨none, c1⟩, ⟨some ⟨u, 0⟩, c2⟩, ⟨some ⟨v, 30⟩, c3⟩] ∧
      ∃ b1 s1 ev, loop_iteration bk init real b
          (create_stream_url (create_stream_url (create_stream s c1).2 c2 u 0).2 c3 v 30).2
            = some (b1, s1, ev) ∧
        ev.filterMap OutputEvent.callback? = [c1, c2, c3] ∧
        s1.requests_queue.items = []) := by
  constructor
  · obtain ⟨b1, s1, ev, h1, h2, h3⟩ := loop_iteration_spec bk init real b s
    exact ⟨b1, s1, ev, h1, h3, h2⟩
  · intro c1 c2 c3 u v hnil hcap
    have hq : ((create_stream_url (create_stream_url (create_stream s c1).2 c2 u 0).2 c3 v 30).2
          ).requests_queue.items
        = [⟨none, c1⟩, ⟨some ⟨u, 0⟩, c2⟩, ⟨some ⟨v, 30⟩, c3⟩] := by
      simp [create_stream, create_stream_url, RequestQueue.push, hnil, hcap]
    refine ⟨hq, ?_⟩
    obtain ⟨b1, s1, ev, h1, h2, h3⟩ := loop_iteration_spec bk init real b
      (create_stream_url (create_stream_url (create_stream s c1).2 c2 u 0).2 c3 v 30).2
    refine ⟨b1, s1, ev, h1, ?_, h2⟩
    rw [h3, hq]; rfl

theorem creation_callbacks_fifo_witness :
    demoEngine.requests_queue.items = [] ∧ demoEngine.requests_queue.capacity = 16 ∧
    ∃ b1 s1 ev, loop_iteration demoBass exampleStream 1 demoBackend
        (create_stream_url (create_stream_url (create_stream demoEngine 1).2 2 "a" 0).2 3
          "b" 30).2 = some (b1, s1, ev) ∧
      ev.filterMap OutputEvent.callback? = [1, 2, 3] ∧
      s1.requests_queue.items = [] :=
  ⟨rfl, rfl,
    ((creation_callbacks_fifo demoBass exampleStream 1 demoBackend demoEngine).2
      1 2 3 "a" "b" rfl rfl).2⟩

/-- C4.  Device-switch coalescing.  With no switch pending, `change_device a` followed by
`change_device g` leaves the engine as `change_device a` alone does; the next
device-switch step then makes one switch attempt, for identifier `a`, and clears the
flag, so that a further step does nothing.  And `change_device` changes nothing whenever
the pending flag is set. -/
theorem change_device_coalesced (bk : Bass β) (real : Nat) (b b2 : β) (s : sound_output_impl)
    (a g : String) (h : s.device_need_update = false) :
    change_device (change_device s a) g = change_device s a ∧
    device_switch bk real b (change_device (change_device s a) g)
      = ((switch_attempt bk real b a).1,
          { s with device_guid := a, device_need_update := false },
          (switch_attempt bk real b a).2) ∧
    device_switch bk real b2 (device_switch bk real b (change_device (change_device s a) g)).2.1
      = (b2, (device_switch bk real b (change_device (change_device s a) g)).2.1, []) ∧
    (∀ (t : sound_output_impl) (g2 : String),
      t.device_need_update = true → change_device t g2 = t) := by
  refine ⟨by simp [change_device, h], by simp [change_device, device_switch, h],
    by simp [change_device, device_switch, h], ?_⟩
  intro t g2 ht
  simp [change_device, ht]

theorem change_device_coalesced_witness :
    demoEngine.device_need_update = false ∧
    change_device (change_device demoEngine "A") "B" = change_device demoEngine "A" ∧
    (device_switch demoBass 1 demoBackend
        (change_device (change_device demoEngine "A") "B")).2.2.filterMap OutputEvent.setDevice?
      = [1] :=
  ⟨rfl, (change_device_coalesced demoBass 1 demoBackend demoBackend demoEngine "A" "B" rfl).1,
    by rw [(change_device_coalesced demoBass 1 demoBackend demoBackend demoEngine "A" "B"
      rfl).2.1]; decide⟩

theorem deliveries_callbacks (bk : Bass β) (init : stream_impl) (s : sound_output_impl) :
    ∀ (items : List request_stream_message) (b : β),
      (deliveries bk init s b items).map Prod.fst
        = items.map (fun m => m.on_creation_callback) := by
  intro items
  induction items with
  | nil => intro b; rfl
  | cons msg rest ih => intro b; simp [deliveries, ih]

theorem create_online_raises (bk : Bass β) (init : stream_impl) (b : β) (output : Nat)
    (url : String) (file_offset : Nat) (sample_rate : Int) :
    (∃ e, (stream_impl.create_online bk init b output url file_offset sample_rate).2.1
        = Except.error e) ↔ (bk.BASS_StreamCreateURL b url).2 = 0 := by
  unfold stream_impl.create_online
  by_cases h : (bk.BASS_StreamCreateURL b url).2 = 0
  · simp [h]
  · by_cases h2 : file_offset = 0 <;> simp [h, h2]

theorem create_local_raises (bk : Bass β) (init : stream_impl) (b : β) (output : Nat)
    (sample_rate : Int) :
    (∃ e, (stream_impl.create_local bk init b output sample_rate).2.1 = Except.error e) ↔
      ((bk.BASS_StreamCreate b sample_rate).2 = 0 ∨
        (bk.opus_decoder_create (bk.BASS_StreamCreate b sample_rate).1 sample_rate).2.1 ≠ 0 ∨
        (bk.opus_decoder_create (bk.BASS_StreamCreate b sample_rate).1 sample_rate).2.2 = 0) := by
  unfold stream_impl.create_local
  by_cases h : (bk.BASS_StreamCreate b sample_rate).2 = 0
  · simp [h]
  · by_cases h2 :
        (bk.opus_decoder_create (bk.BASS_StreamCreate b sample_rate).1 sample_rate).2.1 ≠ 0 ∨
        (bk.opus_decoder_create (bk.BASS_StreamCreate b sample_rate).1 sample_rate).2.2 = 0
    · simp only [h, if_false, h2, if_true]
      simp [h2]
    · simp only [h, if_false, h2, false_or, iff_false]
      simp

theorem construct_online_ok (bk : Bass β) (init : stream_impl) (b0 : β) (s : sound_output_impl)
    (msg : request_stream_message) (p : online_stream_parameters) (hp : msg.params = some p)
    (hh : (bk.BASS_StreamCreateURL b0 p.url).2 ≠ 0) :
    construct_stream bk init b0 s msg
      = ((bk.BASS_StreamCreateURL b0 p.url).1,
          Except.ok { init with sample_rate := s.sampling_rate, output_impl := s.self,
                                offset_to_set := p.file_offset,
                                stream_handle := (bk.BASS_StreamCreateURL b0 p.url).2,
                                type := stream_type.kOnlineDataStream, decoder := 0 },
          if p.file_offset = 0 then
            [BassCall.StreamCreateURL p.url,
              BassCall.ChannelSetSyncEnd (bk.BASS_StreamCreateURL b0 p.url).2,
              BassCall.ChannelPlay (bk.BASS_StreamCreateURL b0 p.url).2 false]
          else
            [BassCall.StreamCreateURL p.url,
              BassCall.ChannelSetSyncEnd (bk.BASS_StreamCreateURL b0 p.url).2]) := by
  by_cases h0 : p.file_offset = 0 <;>
    simp [construct_stream, hp, stream_impl.create_online, hh, h0]

theorem construct_online_fails (bk : Bass β) (init : stream_impl) (b0 : β)
    (s : sound_output_impl) (msg : request_stream_message) (p : online_stream_parameters)
    (hp : msg.params = some p) (hh : (bk.BASS_StreamCreateURL b0 p.url).2 = 0) :
    construct_stream bk init b0 s msg
      = ((bk.BASS_StreamCreateURL b0 p.url).1,
          Except.error voice_exception.online_stream_failed,
          [BassCall.StreamCreateURL p.url]) := by
  simp [construct_stream, hp, stream_impl.create_online, hh]

theorem construct_local_ok (bk : Bass β) (init : stream_impl) (b0 : β) (s : sound_output_impl)
    (msg : request_stream_message) (hp : msg.params = none)
    (hh : (bk.BASS_StreamCreate b0 s.sampling_rate).2 ≠ 0)
    (he : (bk.opus_decoder_create (bk.BASS_StreamCreate b0 s.sampling_rate).1
      s.sampling_rate).2.1 = 0)
    (hd : (bk.opus_decoder_create (bk.BASS_StreamCreate b0 s.sampling_rate).1
      s.sampling_rate).2.2 ≠ 0) :
    construct_stream bk init b0 s msg
      = ((bk.opus_decoder_create (bk.BASS_StreamCreate b0 s.sampling_rate).1
            s.sampling_rate).1,
          Except.ok { init with sample_rate := s.sampling_rate, output_impl := s.self,
                                stream_handle := (bk.BASS_StreamCreate b0 s.sampling_rate).2,
                                type := stream_type.kLocalDataStream,
                                decoder := (bk.opus_decoder_create
                                  (bk.BASS_StreamCreate b0 s.sampling_rate).1
                                  s.sampling_rate).2.2 },
          [BassCall.StreamCreate s.sampling_rate,
            BassCall.ChannelSetGranule (bk.BASS_StreamCreate b0 s.sampling_rate).2 480,
            BassCall.ChannelPlay (bk.BASS_StreamCreate b0 s.sampling_rate).2 false]) := by
  simp [construct_stream, hp, stream_impl.create_local, hh, he, hd]

theorem construct_local_fails (bk : Bass β) (init : stream_impl) (b0 : β)
    (s : sound_output_impl) (msg : request_stream_message) (hp : msg.params = none) :
    ((bk.BASS_StreamCreate b0 s.sampling_rate).2 = 0 →
      construct_stream bk init b0 s msg
        = ((bk.BASS_StreamCreate b0 s.sampling_rate).1,
            Except.error voice_exception.local_stream_failed,
            [BassCall.StreamCreate s.sampling_rate])) ∧
    ((bk.BASS_StreamCreate b0 s.sampling_rate).2 ≠ 0 →
      ((bk.opus_decoder_create (bk.BASS_StreamCreate b0 s.sampling_rate).1
          s.sampling_rate).2.1 ≠ 0 ∨
        (bk.opus_decoder_create (bk.BASS_StreamCreate b0 s.sampling_rate).1
          s.sampling_rate).2.2 = 0) →
      construct_stream bk init b0 s msg
        = ((bk.opus_decoder_create (bk.BASS_StreamCreate b0 s.sampling_rate).1
              s.sampling_rate).1,
            Except.error (voice_exception.opus_decoder_failed
              (bk.opus_decoder_create (bk.BASS_StreamCreate b0 s.sampling_rate).1
                s.sampling_rate).2.1),
            [BassCall.StreamCreate s.sampling_rate])) := by
  constructor
  · intro hh
    simp [construct_stream, hp, stream_impl.create_local, hh]
  · intro hh hd
    simp only [construct_stream, hp, stream_impl.create_local, hh, if_false]
    rw [if_pos hd]

/-- C6.  The stream factory of the drain step.  For every request the local constructor
runs when the request has no URL parameters and the URL constructor, with the url and
start offset of the request, otherwise; the drain step returns for every queue, empties
it, and invokes for each request, in order, its completion callback with exactly what
the construction gave: the stream, or the exception it raised (so a failed construction
neither leaves the loop nor keeps the later requests from being processed).  The URL
constructor raises exactly when the backend returns the null handle; the local one
exactly when the backend returns the null handle or the decoder cannot be created.
What is constructed: for a request with URL parameters, when `BASS_StreamCreateURL` for
the url of the request returns a handle, a stream of type `kOnlineDataStream` on that
handle whose pending start offset is the offset of the request, with the end sync set
and, for offset 0, playback started, and otherwise the exception; for a request without
parameters, when `BASS_StreamCreate` returns a handle and the decoder is created, a
stream of type `kLocalDataStream` on that handle with that decoder, and otherwise the
exception. -/
theorem creation_results_delivered (bk : Bass β) (init : stream_impl) (b : β)
    (s : sound_output_impl) :
    (∀ (b0 : β) (msg : request_stream_message), msg.params = none →
      construct_stream bk init b0 s msg
        = stream_impl.create_local bk init b0 s.self s.sampling_rate) ∧
    (∀ (b0 : β) (msg : request_stream_message) (p : online_stream_parameters),
      msg.params = some p →
      construct_stream bk init b0 s msg
        = stream_impl.create_online bk init b0 s.self p.url p.file_offset s.sampling_rate) ∧
    (∃ b1 s1 ev, drain_requests bk init b s = some (b1, s1, ev) ∧
      s1.requests_queue.items = [] ∧
      ev.filterMap OutputEvent.delivery?
        = deliveries bk init s b s.requests_queue.items) ∧
    (deliveries bk init s b s.requests_queue.items).map Prod.fst
      = s.requests_queue.items.map (fun m => m.on_creation_callback) ∧
    (∀ (b0 : β) (output : Nat) (url : String) (file_offset : Nat) (sample_rate : Int),
      (∃ e, (stream_impl.create_online bk init b0 output url file_offset sample_rate).2.1
        = Except.error e) ↔ (bk.BASS_StreamCreateURL b0 url).2 = 0) ∧
    (∀ (b0 : β) (output : Nat) (sample_rate : Int),
      (∃ e, (stream_impl.create_local bk init b0 output sample_rate).2.1 = Except.error e) ↔
        ((bk.BASS_StreamCreate b0 sample_rate).2 = 0 ∨
          (bk.opus_decoder_create (bk.BASS_StreamCreate b0 sample_rate).1 sample_rate).2.1 ≠ 0 ∨
          (bk.opus_decoder_create (bk.BASS_StreamCreate b0 sample_rate).1 sample_rate).2.2
            = 0)) ∧
    (∀ (b0 : β) (msg : request_stream_message) (p : online_stream_parameters),
      msg.params = some p → (bk.BASS_StreamCreateURL b0 p.url).2 ≠ 0 →
      construct_stream bk init b0 s msg
        = ((bk.BASS_StreamCreateURL b0 p.url).1,
            Except.ok { init with sample_rate := s.sampling_rate, output_impl := s.self,
                                  offset_to_set := p.file_offset,
                                  stream_handle := (bk.BASS_StreamCreateURL b0 p.url).2,
                                  type := stream_type.kOnlineDataStream, decoder := 0 },
            if p.file_offset = 0 then
              [BassCall.StreamCreateURL p.url,
                BassCall.ChannelSetSyncEnd (bk.BASS_StreamCreateURL b0 p.url).2,
                BassCall.ChannelPlay (bk.BASS_StreamCreateURL b0 p.url).2 false]
            else
              [BassCall.StreamCreateURL p.url,
                BassCall.ChannelSetSyncEnd (bk.BASS_StreamCreateURL b0 p.url).2])) ∧
    (∀ (b0 : β) (msg : request_stream_message) (p : online_stream_parameters),
      msg.params = some p → (bk.BASS_StreamCreateURL b0 p.url).2 = 0 →
      construct_stream bk init b0 s msg
        = ((bk.BASS_StreamCreateURL b0 p.url).1,
            Except.error voice_exception.online_stream_failed,
            [BassCall.StreamCreateURL p.url])) ∧
    (∀ (b0 : β) (msg : request_stream_message), msg.params = none →
      (bk.BASS_StreamCreate b0 s.sampling_rate).2 ≠ 0 →
      (bk.opus_decoder_create (bk.BASS_StreamCreate b0 s.sampling_rate).1
        s.sampling_rate).2.1 = 0 →
      (bk.opus_decoder_create (bk.BASS_StreamCreate b0 s.sampling_rate).1
        s.sampling_rate).2.2 ≠ 0 →
      construct_stream bk init b0 s msg
        = ((bk.opus_decoder_create (bk.BASS_StreamCreate b0 s.sampling_rate).1
              s.sampling_rate).1,
            Except.ok { init with sample_rate := s.sampling_rate, output_impl := s.self,
                                  stream_handle := (bk.BASS_StreamCreate b0 s.sampling_rate).2,
                                  type := stream_type.kLocalDataStream,
                                  decoder := (bk.opus_decoder_create
                                    (bk.BASS_StreamCreate b0 s.sampling_rate).1
                                    s.sampling_rate).2.2 },
            [BassCall.StreamCreate s.sampling_rate,
              BassCall.ChannelSetGranule (bk.BASS_StreamCreate b0 s.sampling_rate).2 480,
              BassCall.ChannelPlay (bk.BASS_StreamCreate b0 s.sampling_rate).2 false])) ∧
    (∀ (b0 : β) (msg : request_stream_message), msg.params = none →
      ((bk.BASS_StreamCreate b0 s.sampling_rate).2 = 0 →
        construct_stream bk init b0 s msg
          = ((bk.BASS_StreamCreate b0 s.sampling_rate).1,
              Except.error voice_exception.local_stream_failed,
              [BassCall.StreamCreate s.sampling_rate])) ∧
      ((bk.BASS_StreamCreate b0 s.sampling_rate).2 ≠ 0 →
        ((bk.opus_decoder_create (bk.BASS_StreamCreate b0 s.sampling_rate).1
            s.sampling_rate).2.1 ≠ 0 ∨
          (bk.opus_decoder_create (bk.BASS_StreamCreate b0 s.sampling_rate).1
            s.sampling_rate).2.2 = 0) →
        construct_stream bk init b0 s msg
          = ((bk.opus_decoder_create (bk.BASS_StreamCreate b0 s.sampling_rate).1
                s.sampling_rate).1,
              Except.error (voice_exception.opus_decoder_failed
                (bk.opus_decoder_create (bk.BASS_StreamCreate b0 s.sampling_rate).1
                  s.sampling_rate).2.1),
              [BassCall.StreamCreate s.sampling_rate]))) := by
  refine ⟨fun b0 msg h => by simp [construct_stream, h],
    fun b0 msg p h => by simp [construct_stream, h], ?_, deliveries_callbacks bk init s _ b,
    create_online_raises bk init, create_local_raises bk init,
    fun b0 msg p hp hh => construct_online_ok bk init b0 s msg p hp hh,
    fun b0 msg p hp hh => construct_online_fails bk init b0 s msg p hp hh,
    fun b0 msg hp hh he hd => construct_local_ok bk init b0 s msg hp hh he hd,
    fun b0 msg hp => construct_local_fails bk init b0 s msg hp⟩
  obtain ⟨b1, s1, ev, h1, h2, -, h4⟩ := drain_requests_spec bk init b s
  exact ⟨b1, s1, ev, h1, h2, h4⟩

theorem creation_results_delivered_witness :
    (∃ b1 s1 ev, drain_requests demoBass exampleStream demoBackend mixedRequests
        = some (b1, s1, ev) ∧
      s1.requests_queue.items = [] ∧
      ev.filterMap OutputEvent.delivery?
        = deliveries demoBass exampleStream mixedRequests demoBackend
            mixedRequests.requests_queue.items) ∧
    (deliveries demoBass exampleStream mixedRequests demoBackend
        mixedRequests.requests_queue.items).map (fun d => (d.1, delivered_stream d.2))
      = [(1, some (stream_type.kLocalDataStream, 1, 0)),
          (2, some (stream_type.kOnlineDataStream, 2, 0)),
          (3, some (stream_type.kOnlineDataStream, 3, 30)),
          (4, none)] ∧
    (deliveries demoBass exampleStream failingThenLocal demoBackend
        failingThenLocal.requests_queue.items).map (fun d => (d.1, holds_stream d.2))
      = [(1, false), (2, true)] :=
  ⟨(creation_results_delivered demoBass exampleStream demoBackend mixedRequests).2.2.1,
    by decide, by decide⟩

/-- C7, counterexample.  The engine was initialised on device 1.  A switch to "B" succeeds
and makes device 2 current; the following switch to "X", which is not in the device
table, binds device 1, not device 2, the device active immediately before that
attempt. -/
theorem fallback_is_not_previous_device :
    demoBass.BASS_GetDevice demoBackend = 1 ∧
    demoBass.BASS_GetDevice
      (device_switch demoBass 1 demoBackend (change_device demoEngine "B")).1 = 2 ∧
    find_device "X" ((demoBass.devices
      (device_switch demoBass 1 demoBackend (change_device demoEngine "B")).1).drop 1) 1 = none ∧
    demoBass.BASS_GetDevice
      (device_switch demoBass 1
        (device_switch demoBass 1 demoBackend (change_device demoEngine "B")).1
        (change_device
          (device_switch demoBass 1 demoBackend (change_device demoEngine "B")).2.1 "X")).1
      = 1 ∧
    demoBass.BASS_GetDevice
      (device_switch demoBass 1
        (device_switch demoBass 1 demoBackend (change_device demoEngine "B")).1
        (change_device
          (device_switch demoBass 1 demoBackend (change_device demoEngine "B")).2.1 "X")).1
      ≠ demoBass.BASS_GetDevice
        (device_switch demoBass 1 demoBackend (change_device demoEngine "B")).1 := by
  decide

/-- C7, amended.  After the device-switch step the pending flag is false, whether a switch
was pending, succeeded or failed.  When the requested device is not among the enabled
devices, or is found and cannot be bound, the step calls
`BASS_SetDevice(real_output_device)`, for the device that was current when the engine
was initialised; when the requested device is bound, no further call is made. -/
theorem device_switch_fallback (bk : Bass β) (real : Nat) (b : β) (s : sound_output_impl) :
    (device_switch bk real b s).2.1.device_need_update = false ∧
    (s.device_need_update = true →
      find_device s.device_guid ((bk.devices b).drop 1) 1 = none →
      device_switch bk real b s
        = ((bk.BASS_SetDevice b real).1, { s with device_need_update := false },
            [OutputEvent.bass (.SetDevice real)])) ∧
    (s.device_need_update = true → ∀ i : Nat,
      find_device s.device_guid ((bk.devices b).drop 1) 1 = some i →
      (bk.BASS_SetDevice b i).2 = false →
      device_switch bk real b s
        = ((bk.BASS_SetDevice (bk.BASS_SetDevice b i).1 real).1,
            { s with device_need_update := false },
            [OutputEvent.bass (.SetDevice i), OutputEvent.bass (.SetDevice real)])) ∧
    (s.device_need_update = true → ∀ i : Nat,
      find_device s.device_guid ((bk.devices b).drop 1) 1 = some i →
      (bk.BASS_SetDevice b i).2 = true →
      device_switch bk real b s
        = ((bk.BASS_SetDevice b i).1, { s with device_need_update := false },
            [OutputEvent.bass (.SetDevice i)])) := by
  refine ⟨?_, ?_, ?_, ?_⟩
  · cases h : s.device_need_update <;> simp [device_switch, h]
  · intro h hf
    simp only [device_switch, switch_attempt, h, hf, if_true]
    simp
  · intro h i hf hb
    simp only [device_switch, switch_attempt, h, hf, if_true, hb]
    simp
  · intro h i hf hb
    simp only [device_switch, switch_attempt, h, hf, if_true, hb]
    simp

theorem device_switch_fallback_witness :
    (change_device demoEngine "X").device_need_update = true ∧
    find_device (change_device demoEngine "X").device_guid
      ((demoBass.devices demoBackend).drop 1) 1 = none ∧
    device_switch demoBass 1 demoBackend (change_device demoEngine "X")
      = ((demoBass.BASS_SetDevice demoBackend 1).1,
          { change_device demoEngine "X" with device_need_update := false },
          [OutputEvent.bass (.SetDevice 1)]) :=
  ⟨rfl, by decide,
    (device_switch_fallback demoBass 1 demoBackend (change_device demoEngine "X")).2.1 rfl
      (by decide)⟩

/-- C8.  With 16 requests queued in the queue of capacity 16, a call of either overload
of `create_stream` fails at once: the caller gets the failure of the push (not a normal
return), the call returns without waiting for room, and the engine with its queued
requests is left unchanged.  With room left in the queue, by contrast, the call returns
normally and the request is appended. -/
theorem create_stream_full_fails (s : sound_output_impl) (cb : Nat) (url : String)
    (file_offset : Nat) (hcap : s.requests_queue.capacity = 16)
    (hfull : s.requests_queue.items.length = 16) :
    create_stream s cb = (Except.error push_failure.queue_full, s) ∧
    create_stream_url s cb url file_offset = (Except.error push_failure.queue_full, s) ∧
    (∀ t : sound_output_impl, t.requests_queue.items.length < t.requests_queue.capacity →
      (create_stream t cb).1 = Except.ok () ∧
      (create_stream t cb).2.requests_queue.items = t.requests_queue.items ++ [⟨none, cb⟩] ∧
      (create_stream_url t cb url file_offset).1 = Except.ok () ∧
      (create_stream_url t cb url file_offset).2.requests_queue.items
        = t.requests_queue.items ++ [⟨some ⟨url, file_offset⟩, cb⟩]) := by
  refine ⟨by simp [create_stream, RequestQueue.push, hcap, hfull],
    by simp [create_stream_url, RequestQueue.push, hcap, hfull], ?_⟩
  intro t ht
  simp [create_stream, create_stream_url, RequestQueue.push, ht]

theorem create_stream_full_fails_witness :
    fullEngine.requests_queue.capacity = 16 ∧ fullEngine.requests_queue.items.length = 16 ∧
    create_stream fullEngine 99 = (Except.error push_failure.queue_full, fullEngine) ∧
    create_stream_url fullEngine 99 "a" 0
      = (Except.error push_failure.queue_full, fullEngine) :=
  ⟨rfl, rfl, (create_stream_full_fails fullEngine 99 "a" 0 rfl rfl).1,
    (create_stream_full_fails fullEngine 99 "a" 0 rfl rfl).2.1⟩

end sound_output_impl




namespace StreamWorld
variable {β : Type}

theorem step_wf (bk : Bass β) (w : StreamWorld β) (op : StreamOp) (hw : w.syncs_wf) :
    (step bk w op).1.syncs_wf := by
  have hnil : w.end_syncs.filter (fun c => decide (c ≠ w.st.stream_handle)) = [] := by
    rcases hw with h | h <;> rw [h] <;> simp
  cases op with
  | on_end_stream_cb cb => simpa [step, syncs_wf, stream_impl.on_end_stream_cb] using hw
  | set_url url =>
    simp only [step, syncs_wf, stream_impl.set_url, List.foldl_cons, List.foldl_nil,
      end_syncs_after, hnil]
    by_cases h0 : (bk.BASS_StreamCreateURL w.backend url).2 = 0 <;> simp [h0]
  | continue_playing => exact hw
  | pause_playing => exact hw
  | destroy =>
    left
    simp only [step, stream_impl.destroy, List.foldl_cons, List.foldl_nil,
      end_syncs_after, hnil]
  | sync_end channel => exact hw

theorem step_silent (bk : Bass β) (w : StreamWorld β) (op : StreamOp)
    (h : op.isSyncEnd = false) : (step bk w op).2 = [] := by
  cases op with
  | sync_end channel => simp [StreamOp.isSyncEnd] at h
  | on_end_stream_cb cb => rfl
  | set_url url => rfl
  | continue_playing => rfl
  | pause_playing => rfl
  | destroy => rfl

theorem step_sync_end (bk : Bass β) (w : StreamWorld β) (channel : Nat) (hw : w.syncs_wf) :
    step bk w (StreamOp.sync_end channel)
      = (w, if w.end_syncs = [channel] then
              (match w.st.on_end_cb with
                | some cb => [cb]
                | none => [])
            else []) := by
  rcases hw with h | h
  · simp [step, h]
  · by_cases hc : w.st.stream_handle = channel
    · cases hcb : w.st.on_end_cb <;> simp [step, h, hc, stream_impl.sync_end_handler, hcb]
    · simp [step, h, hc]

theorem run_expected (bk : Bass β) :
    ∀ (ops : List StreamOp) (w : StreamWorld β), w.syncs_wf →
      (run bk w ops).2 = expected_callbacks bk w ops := by
  intro ops
  induction ops with
  | nil => intro w _; rfl
  | cons op rest ih =>
    intro w hw
    simp only [run, expected_callbacks, ih _ (step_wf bk w op hw)]
    congr 1
    cases op with
    | sync_end channel => rw [step_sync_end bk w channel hw]
    | on_end_stream_cb cb => rfl
    | set_url url => rfl
    | continue_playing => rfl
    | pause_playing => rfl
    | destroy => rfl

theorem step_count (bk : Bass β) (w : StreamWorld β) (op : StreamOp) (hw : w.syncs_wf) :
    (step bk w op).2.length ≤ ([op].filter StreamOp.isSyncEnd).length := by
  cases hs : op.isSyncEnd with
  | false => rw [step_silent bk w op hs]; simp
  | true =>
    cases op with
    | sync_end channel =>
      rw [step_sync_end bk w channel hw]
      simp only [List.filter, StreamOp.isSyncEnd, List.length_singleton]
      split
      · split <;> simp
      · simp
    | on_end_stream_cb cb => simp [StreamOp.isSyncEnd] at hs
    | set_url url => simp [StreamOp.isSyncEnd] at hs
    | continue_playing => simp [StreamOp.isSyncEnd] at hs
    | pause_playing => simp [StreamOp.isSyncEnd] at hs
    | destroy => simp [StreamOp.isSyncEnd] at hs

theorem run_count (bk : Bass β) :
    ∀ (ops : List StreamOp) (w : StreamWorld β), w.syncs_wf →
      (run bk w ops).2.length ≤ (ops.filter StreamOp.isSyncEnd).length := by
  intro ops
  induction ops with
  | nil => intro w _; simp [run]
  | cons op rest ih =>
    intro w hw
    have h1 := step_count bk w op hw
    have h2 := ih (step bk w op).1 (step_wf bk w op hw)
    have h3 : ((op :: rest).filter StreamOp.isSyncEnd).length
        = ([op].filter StreamOp.isSyncEnd).length + (rest.filter StreamOp.isSyncEnd).length := by
      rw [← List.length_append, ← List.filter_append]; rfl
    simp only [run, List.length_append, h3]
    omega

theorem run_signals (bk : Bass β) (w : StreamWorld β) (h cb : Nat)
    (hs : w.end_syncs = [h]) (hcb : w.st.on_end_cb = some cb) :
    ∀ n : Nat, (run bk w (List.replicate n (StreamOp.sync_end h))).2 = List.replicate n cb := by
  intro n
  induction n with
  | zero => rfl
  | succ n ih =>
    have hstep : step bk w (StreamOp.sync_end h) = (w, [cb]) := by
      simp [step, hs, stream_impl.sync_end_handler, hcb]
    simp only [List.replicate_succ, run, hstep, ih]
    rfl

theorem run_after_destroy (bk : Bass β) (w : StreamWorld β) (hw : w.syncs_wf) :
    ∀ channels : List Nat,
      (run bk (step bk w StreamOp.destroy).1 (channels.map StreamOp.sync_end)).2 = [] := by
  have hnil : (step bk w StreamOp.destroy).1.end_syncs = [] := by
    have h0 : w.end_syncs.filter (fun c => decide (c ≠ w.st.stream_handle)) = [] := by
      rcases hw with h | h <;> rw [h] <;> simp
    simp only [step, stream_impl.destroy, List.foldl_cons, List.foldl_nil, end_syncs_after, h0]
  generalize (step bk w StreamOp.destroy).1 = v at hnil
  intro channels
  induction channels with
  | nil => rfl
  | cons c rest ih =>
    have hstep : step bk v (StreamOp.sync_end c) = (v, []) := by simp [step, hnil]
    simp only [List.map_cons, run, hstep, ih]
    rfl

theorem created_online_wf (bk : Bass β) (init : stream_impl) (b : β) (output : Nat)
    (url : String) (file_offset : Nat) (sample_rate : Int) (st : stream_impl)
    (h : (stream_impl.create_online bk init b output url file_offset sample_rate).2.1
      = Except.ok st) :
    (created (stream_impl.create_online bk init b output url file_offset sample_rate).1 st
      (stream_impl.create_online bk init b output url file_offset sample_rate).2.2).syncs_wf := by
  unfold stream_impl.create_online at h ⊢
  by_cases h0 : (bk.BASS_StreamCreateURL b url).2 = 0
  · simp [h0] at h
  · by_cases h1 : file_offset = 0
    · simp only [h0, h1, if_false, if_true] at h ⊢
      injection h with h; subst h
      right
      simp [created, end_syncs_after, h0]
    · simp only [h0, h1, if_false] at h ⊢
      injection h with h; subst h
      right
      simp [created, end_syncs_after, h0]

theorem created_local_wf (bk : Bass β) (init : stream_impl) (b : β) (output : Nat)
    (sample_rate : Int) (st : stream_impl) :
    (created (stream_impl.create_local bk init b output sample_rate).1 st
      (stream_impl.create_local bk init b output sample_rate).2.2).syncs_wf := by
  left
  unfold stream_impl.create_local
  simp only [created]
  split
  · rfl
  · split <;> rfl

/-- C9, counterexample.  On a URL stream with the end-of-stream callback 9 registered, the
backend signals the end of the source, `set_url` moves the stream to a new source, and
the backend signals the end of that source: the callback is invoked twice. -/
theorem end_callback_fires_twice :
    (run demoBass demoOnlineWorld
      [StreamOp.on_end_stream_cb (some 9), StreamOp.sync_end 1, StreamOp.set_url "b",
        StreamOp.sync_end 2]).2 = [9, 9] := by
  decide

/-- C9, amended.  For a stream whose end syncs are those the sources register (none, or
one on the channel the stream holds, which is what both constructors leave), and every
sequence of `on_end_stream_cb`, `set_url`, pause, continue, destruction and backend
end-of-source signals: the end-of-stream callback is invoked exactly once for every
end-of-source signal on the channel that carries the end sync, with the callback
registered at that moment, and at no other time, so `n` signals on that channel give
`n` invocations and the callback is never invoked more often than the backend signals;
no operation other than such a signal invokes it; the destructor invokes nothing and
frees the channel with its sync, so that later end signals reach no handler. -/
theorem end_callback_per_signal (bk : Bass β) (w : StreamWorld β) (ops : List StreamOp)
    (hw : w.syncs_wf) :
    (run bk w ops).2 = expected_callbacks bk w ops ∧
    (∀ channel : Nat, (step bk w (StreamOp.sync_end channel)).2
      = if w.end_syncs = [channel] then
          (match w.st.on_end_cb with
            | some cb => [cb]
            | none => [])
        else []) ∧
    (∀ (h cb n : Nat), w.end_syncs = [h] → w.st.on_end_cb = some cb →
      (run bk w (List.replicate n (StreamOp.sync_end h))).2 = List.replicate n cb) ∧
    (run bk w ops).2.length ≤ (ops.filter StreamOp.isSyncEnd).length ∧
    (∀ op : StreamOp, op.isSyncEnd = false → (step bk w op).2 = []) ∧
    (step bk w StreamOp.destroy).2 = [] ∧
    (∀ channels : List Nat,
      (run bk (step bk w StreamOp.destroy).1 (channels.map StreamOp.sync_end)).2 = []) ∧
    (∀ (init : stream_impl) (b : β) (output : Nat) (url : String) (file_offset : Nat)
      (sample_rate : Int) (st : stream_impl),
      (stream_impl.create_online bk init b output url file_offset sample_rate).2.1
        = Except.ok st →
      (created (stream_impl.create_online bk init b output url file_offset sample_rate).1 st
        (stream_impl.create_online bk init b output url file_offset sample_rate).2.2
        ).syncs_wf) ∧
    (∀ (init : stream_impl) (b : β) (output : Nat) (sample_rate : Int) (st : stream_impl),
      (created (stream_impl.create_local bk init b output sample_rate).1 st
        (stream_impl.create_local bk init b output sample_rate).2.2).syncs_wf) :=
  ⟨run_expected bk ops w hw,
    fun channel => by rw [step_sync_end bk w channel hw],
    fun h cb n hs hcb => run_signals bk w h cb hs hcb n,
    run_count bk ops w hw, fun op h => step_silent bk w op h, step_silent bk w _ rfl,
    run_after_destroy bk w hw,
    fun init b output url file_offset sample_rate st h =>
      created_online_wf bk init b output url file_offset sample_rate st h,
    fun init b output sample_rate st => created_local_wf bk init b output sample_rate st⟩

theorem end_callback_per_signal_witness :
    demoOnlineWorld.syncs_wf ∧
    (run demoBass demoOnlineWorld
      [StreamOp.on_end_stream_cb (some 9), StreamOp.sync_end 1, StreamOp.sync_end 7,
        StreamOp.destroy, StreamOp.sync_end 1]).2
      = expected_callbacks demoBass demoOnlineWorld
          [StreamOp.on_end_stream_cb (some 9), StreamOp.sync_end 1, StreamOp.sync_end 7,
            StreamOp.destroy, StreamOp.sync_end 1] ∧
    expected_callbacks demoBass demoOnlineWorld
      [StreamOp.on_end_stream_cb (some 9), StreamOp.sync_end 1, StreamOp.sync_end 7,
        StreamOp.destroy, StreamOp.sync_end 1] = [9] :=
  ⟨Or.inr rfl, (end_callback_per_signal demoBass demoOnlineWorld _ (Or.inr rfl)).1,
    by decide⟩

end StreamWorld
section StreamAttributes


theorem gain_run_append (st : stream_impl) (a b : List GainOp) :
    gain_run st (a ++ b)
      = ((gain_run (gain_run st a).1 b).1, (gain_run st a).2 ++ (gain_run (gain_run st a).1 b).2) := by
  induction a generalizing st with
  | nil => simp [gain_run]
  | cons op rest ih => simp [gain_run, ih]

theorem gain_run_output_gain (ops : List GainOp) :
    ∀ st : stream_impl, (gain_run st ops).1.output_gain = (last_set_gain ops).getD st.output_gain := by
  induction ops with
  | nil => intro st; rfl
  | cons op rest ih =>
    intro st
    simp only [gain_run, last_set_gain, ih]
    cases h : last_set_gain rest with
    | some g => rfl
    | none => cases op <;> rfl

theorem channel_volume_append_vol (calls : List BassCall) (h : Nat) (v : Sample) :
    channel_volume (calls ++ [BassCall.ChannelSetVol h v]) = some v := by
  simp [channel_volume, List.foldl_append]

/-- C11, counterexample.  After `set_gain(5)`, `set_gain(0)`, `mute_stream`,
`unmute_stream` the channel volume is 0, while the most recent non-zero gain passed to
`set_gain` is 5. -/
theorem unmute_restores_zero_gain :
    channel_volume (gain_run exampleStream
      [GainOp.set_gain 5, GainOp.set_gain 0, GainOp.mute_stream, GainOp.unmute_stream]).2
        = some 0 ∧
    last_nonzero_gain
      [GainOp.set_gain 5, GainOp.set_gain 0, GainOp.mute_stream, GainOp.unmute_stream]
        = some 5 := by
  decide

/-- C11, amended.  For every sequence of `set_gain`, `mute_stream` and `unmute_stream`
calls: immediately after a `mute_stream` the channel volume sent to the backend is 0;
immediately after an `unmute_stream` it is the most recent gain passed to `set_gain`,
zero included (the stored `output_gain` of the stream when `set_gain` was never
called); and `mute_stream` leaves that remembered gain as it was. -/
theorem unmute_restores_last_gain (st : stream_impl) (ops : List GainOp) :
    channel_volume (gain_run st (ops ++ [GainOp.mute_stream])).2 = some 0 ∧
    channel_volume (gain_run st (ops ++ [GainOp.unmute_stream])).2
      = some ((last_set_gain ops).getD st.output_gain) ∧
    (gain_run st (ops ++ [GainOp.mute_stream])).1.output_gain
      = (last_set_gain ops).getD st.output_gain := by
  refine ⟨?_, ?_, ?_⟩
  · simp only [gain_run_append, gain_run, gain_step, stream_impl.mute_stream, List.append_nil]
    exact channel_volume_append_vol _ _ _
  · simp only [gain_run_append, gain_run, gain_step, stream_impl.unmute_stream, List.append_nil,
      gain_run_output_gain]
    exact channel_volume_append_vol _ _ _
  · simp only [gain_run_append, gain_run, gain_step]
    exact gain_run_output_gain ops st

namespace stream_impl
/-- C12 (the behaviour of the code at a failing input).  The backend calls of `update()`
and of `set_spatial_state(true)` are the same whatever value `set_rolloff_factor` stored
before: on a spatial stream `update()` sends the minimum and maximum distance, the
position, the direction and the velocity, and -1 for the remaining parameters; the
rolloff factor is in no call. -/
theorem rolloff_factor_not_sent (st : stream_impl) (rolloff : Sample) :
    (st.set_rolloff_factor rolloff).update = st.update ∧
    ((st.set_rolloff_factor rolloff).set_spatial_state true).2 = (st.set_spatial_state true).2 ∧
    (st.is_spatial = true →
      (st.set_rolloff_factor rolloff).update
        = [BassCall.ChannelSet3DAttributes st.stream_handle BASS_3DMODE_NORMAL st.min_distance
            st.max_distance (-1) (-1) (-1),
          BassCall.ChannelSet3DPosition st.stream_handle (vec_convert st.position)
            (vec_convert st.direction) (vec_convert st.velocity),
          BassCall.Apply3D]) := by
  refine ⟨rfl, ?_, ?_⟩
  · cases h : st.is_spatial <;> simp [set_spatial_state, set_rolloff_factor, setup_spatial, h]
  · intro h
    simp [update, setup_spatial, set_rolloff_factor, h]

theorem rolloff_factor_not_sent_witness :
    spatialStream.is_spatial = true ∧
    (spatialStream.set_rolloff_factor 77).update
      = [BassCall.ChannelSet3DAttributes 5 BASS_3DMODE_NORMAL 10 20 (-1) (-1) (-1),
          BassCall.ChannelSet3DPosition 5 (1, 2, 3) (7, 8, 9) (4, 5, 6), BassCall.Apply3D] :=
  ⟨rfl, (rolloff_factor_not_sent spatialStream 77).2.2 rfl⟩
end stream_impl

end StreamAttributes

section CaptureMore
open sound_input_impl
variable {E D : Type}

/-- C15.  On a session with a bound record handle, the value a state-changing
`enable_input` or `disable_input` returns is the active flag after the call:
`enable_input` on an inactive session returns what `BASS_ChannelPlay` returned;
`disable_input` on an active session returns the negation of what `BASS_ChannelPause`
returned, so `false` with the session inactive when the pause succeeded, the same value
the call then returns as a no-op on the now inactive session, and `true` with the
session still active when the pause failed. -/
theorem toggle_return_is_active_flag {β : Type} (bk : BassRecord β) (b : β)
    (s : sound_input_impl E D) (hh : s.record_handle ≠ 0) :
    (s.input_active = false →
      (enable_input bk b s).1 = (bk.BASS_ChannelPlay b s.record_handle false).2 ∧
      (enable_input bk b s).2.1.input_active = (enable_input bk b s).1) ∧
    (s.input_active = true →
      (disable_input bk b s).1 = (!(bk.BASS_ChannelPause b s.record_handle).2) ∧
      (disable_input bk b s).2.1.input_active = (disable_input bk b s).1) ∧
    (s.input_active = true → (bk.BASS_ChannelPause b s.record_handle).2 = true →
      (disable_input bk b s).1 = false ∧ (disable_input bk b s).2.1.input_active = false ∧
      (disable_input bk b s).1
        = (disable_input bk (disable_input bk b s).2.2.2 (disable_input bk b s).2.1).1) ∧
    (s.input_active = true → (bk.BASS_ChannelPause b s.record_handle).2 = false →
      (disable_input bk b s).1 = true ∧ (disable_input bk b s).2.1.input_active = true) := by
  refine ⟨fun h => ?_, fun h => ?_, fun h hp => ?_, fun h hp => ?_⟩
  · simp [enable_input, h, hh]
  · simp [disable_input, h, hh]
  · simp [disable_input, h, hh, hp]
  · simp [disable_input, h, hh, hp]

theorem toggle_return_is_active_flag_witness :
    activeSession.record_handle ≠ 0 ∧ activeSession.input_active = true ∧
    (okRecord.BASS_ChannelPause () activeSession.record_handle).2 = true ∧
    (disable_input okRecord () activeSession).1 = false ∧
    (disable_input okRecord () activeSession).2.1.input_active = false ∧
    (disable_input okRecord () activeSession).1
      = (disable_input okRecord (disable_input okRecord () activeSession).2.2.2
          (disable_input okRecord () activeSession).2.1).1 :=
  ⟨by decide, rfl, rfl,
    (toggle_return_is_active_flag okRecord () activeSession (by decide)).2.2.1 rfl rfl⟩

theorem denoise_frame_events (c : Codec E D) (s : sound_input_impl E D) :
    ∀ e ∈ (denoise_frame c s).2, e.isRawInput = false ∧ e.isWriteBuff = false := by
  unfold denoise_frame
  split <;> simp [InputEvent.isRawInput, InputEvent.isWriteBuff]

theorem encode_frame_events (c : Codec E D) (s : sound_input_impl E D) (n : Nat) :
    ∀ e ∈ (encode_frame c s n).2.1, e.isRawInput = false ∧ e.isWriteBuff = false := by
  cases hv : s.on_voice_input <;> simp only [encode_frame, hv] <;> split_ifs <;>
    simp [InputEvent.isRawInput, InputEvent.isWriteBuff]

theorem drain_frame_events (c : Codec E D) (s : sound_input_impl E D) (ev : List InputEvent) :
    ∃ more, (drain_frame c s ev).2.1 = ev ++ more ∧
      ∀ e ∈ more, e.isRawInput = false ∧ e.isWriteBuff = false := by
  refine ⟨(denoise_frame c (read_frame s).1).2
    ++ (encode_frame c (denoise_frame c (read_frame s).1).1 (read_frame s).2).2.1, ?_, ?_⟩
  · simp [drain_frame, List.append_assoc]
  · intro e he
    rcases List.mem_append.mp he with h | h
    · exact denoise_frame_events c _ e h
    · exact encode_frame_events c _ _ e h

theorem drain_loop_events (c : Codec E D) :
    ∀ (fuel : Nat) (s : sound_input_impl E D) (ev : List InputEvent),
      s.temporary_buffer.readAvailable / kOpusFrameSize < fuel →
      ∃ s1 more, drain_loop c fuel s ev = some (s1, ev ++ more) ∧
        ∀ e ∈ more, e.isRawInput = false ∧ e.isWriteBuff = false := by
  intro fuel
  induction fuel with
  | zero => intro s ev h; exact absurd h (Nat.not_lt_zero _)
  | succ n ih =>
    intro s ev h
    unfold drain_loop
    by_cases hge : s.temporary_buffer.readAvailable ≥ kOpusFrameSize
    · obtain ⟨more, hm, hmore⟩ := drain_frame_events c s ev
      simp only [hge, if_true]
      cases hflag : (drain_frame c s ev).2.2 with
      | true =>
        simp only [if_true]
        exact ⟨_, more, by rw [hm], hmore⟩
      | false =>
        have hlen : (drain_frame c s ev).1.temporary_buffer.readAvailable
            = s.temporary_buffer.readAvailable - kOpusFrameSize := by
          rw [drain_frame_buffer]
          simp only [Ringbuffer.readBuff, Ringbuffer.readAvailable, List.length_drop] at hge ⊢
          rw [Nat.min_eq_left hge]
        have hfuel : (drain_frame c s ev).1.temporary_buffer.readAvailable / kOpusFrameSize < n := by
          rw [hlen]; simp only [kOpusFrameSize] at *; omega
        obtain ⟨s1, more2, h1, h2⟩ := ih (drain_frame c s ev).1 (drain_frame c s ev).2.1 hfuel
        simp only [Bool.false_eq_true, if_false]
        refine ⟨s1, more ++ more2, ?_, ?_⟩
        · rw [h1, hm, List.append_assoc]
        · intro e he
          rcases List.mem_append.mp he with h | h
          · exact hmore e h
          · exact h2 e h
    · exact ⟨s, [], by simp [hge], by simp⟩

theorem max?_spec (chunk : List Sample) (hne : chunk ≠ []) :
    ∃ m, chunk.max? = some m ∧ m ∈ chunk ∧ ∀ x ∈ chunk, x ≤ m := by
  cases h : chunk.max? with
  | none => exact absurd (List.max?_eq_none_iff.mp h) hne
  | some m =>
    exact ⟨m, rfl, List.max?_mem (fun a b => max_choice a b) h,
      (List.max?_le_iff (fun a b c => max_le_iff) h).1 (Int.le_refl m)⟩

/-- C13, counterexample.  For the chunk -3, -1, -2 the raw-input callback receives the
level -1, the largest sample value, while the largest absolute sample value is 3; the
level reported for this all-negative chunk is negative. -/
theorem raw_level_is_signed_maximum :
    (process_input okCodec rawSession [-3, -1, -2]).map (fun r => r.2.head?)
      = some (some (InputEvent.raw_voice_input 4 [-3, -1, -2] 3 (some (-1)))) ∧
    peak_amplitude [-3, -1, -2] = some 3 := by
  decide

/-- C13, amended.  For every non-empty chunk, with a raw-input callback registered,
`process_input` returns, and its first action is one invocation of that callback with the
unmodified chunk, its sample count and the largest sample value of the chunk (the signed
maximum `std::max_element` finds); the write of the chunk into the ring buffer comes
next, and everything after it (denoising, encoding, encoded-packet callbacks) contains
no further invocation of the raw-input callback. -/
theorem raw_callback_first (c : Codec E D) (s : sound_input_impl E D) (chunk : List Sample)
    (cb : Nat) (hcb : s.on_raw_voice_input = some cb) (hne : chunk ≠ []) :
    ∃ s1 m more, process_input c s chunk
        = some (s1, InputEvent.raw_voice_input cb chunk chunk.length (some m)
            :: InputEvent.write_buff (min chunk.length s.temporary_buffer.writeAvailable)
            :: more) ∧
      m ∈ chunk ∧ (∀ x ∈ chunk, x ≤ m) ∧
      (∀ e ∈ more, e.isRawInput = false ∧ e.isWriteBuff = false) := by
  obtain ⟨m, hm, hmem, hmax⟩ := max?_spec chunk hne
  obtain ⟨s1, more, h1, h2⟩ := drain_loop_events c
    (((s.temporary_buffer.writeBuff chunk chunk.length).1).readAvailable / kOpusFrameSize + 1)
    { s with temporary_buffer := (s.temporary_buffer.writeBuff chunk chunk.length).1 }
    ([InputEvent.raw_voice_input cb chunk chunk.length (some m)]
      ++ [InputEvent.write_buff (s.temporary_buffer.writeBuff chunk chunk.length).2])
    (Nat.lt_succ_self _)
  refine ⟨s1, m, more, ?_, hmem, hmax, h2⟩
  simpa [process_input, hcb, hm, Ringbuffer.writeBuff] using h1

theorem raw_callback_first_witness :
    rawSession.on_raw_voice_input = some 4 ∧ ([-3, -1, -2] : List Sample) ≠ [] ∧
    ∃ s1 m more, process_input okCodec rawSession [-3, -1, -2]
        = some (s1, InputEvent.raw_voice_input 4 [-3, -1, -2]
            ([-3, -1, -2] : List Sample).length (some m)
            :: InputEvent.write_buff
                (min ([-3, -1, -2] : List Sample).length rawSession.temporary_buffer.writeAvailable)
            :: more) ∧
      m ∈ ([-3, -1, -2] : List Sample) ∧ (∀ x ∈ ([-3, -1, -2] : List Sample), x ≤ m) ∧
      (∀ e ∈ more, e.isRawInput = false ∧ e.isWriteBuff = false) :=
  ⟨rfl, by decide, raw_callback_first okCodec rawSession [-3, -1, -2] 4 rfl (by decide)⟩

theorem apply_toggles_buffer (toggles : List Bool) :
    ∀ s : sound_input_impl E D,
      (apply_toggles s toggles).temporary_buffer = s.temporary_buffer := by
  induction toggles with
  | nil => intro s; rfl
  | cons b rest ih =>
    intro s
    simp only [apply_toggles, List.foldl_cons] at ih ⊢
    rw [ih]; rfl

theorem process_input_counts_any (c : Codec E D) (hc : c.encode_succeeds)
    (s : sound_input_impl E D) (chunk : List Sample) :
    ∃ s1 ev1, process_input c s chunk = some (s1, ev1) ∧
      s1.temporary_buffer.readAvailable
        = (s.temporary_buffer.readAvailable
            + min chunk.length s.temporary_buffer.writeAvailable) % kOpusFrameSize ∧
      s1.temporary_buffer.buffer_size = s.temporary_buffer.buffer_size ∧
      encode_calls ev1
        = (s.temporary_buffer.readAvailable
            + min chunk.length s.temporary_buffer.writeAvailable) / kOpusFrameSize := by
  have hw : ((s.temporary_buffer.writeBuff chunk chunk.length).1).readAvailable
      = s.temporary_buffer.readAvailable
          + min chunk.length s.temporary_buffer.writeAvailable := by
    simp only [Ringbuffer.writeBuff, Ringbuffer.readAvailable, List.length_append,
      List.length_take]
    omega
  have hev : ∀ (o : Option Nat) (n : Nat), encode_calls ((match o with
      | some cb => [InputEvent.raw_voice_input cb chunk chunk.length chunk.max?]
      | none => []) ++ [InputEvent.write_buff n]) = 0 := by
    intro o n; cases o <;> rfl
  obtain ⟨s1, ev1, h1, h2, h3, h4⟩ := drain_loop_counts c hc
    (((s.temporary_buffer.writeBuff chunk chunk.length).1).readAvailable / kOpusFrameSize + 1)
    { s with temporary_buffer := (s.temporary_buffer.writeBuff chunk chunk.length).1 }
    ((match s.on_raw_voice_input with
      | some cb => [InputEvent.raw_voice_input cb chunk chunk.length chunk.max?]
      | none => []) ++ [InputEvent.write_buff (s.temporary_buffer.writeBuff chunk chunk.length).2])
    (Nat.lt_succ_self _)
  refine ⟨s1, ev1, h1, ?_, ?_, ?_⟩
  · rw [h2, hw]
  · rw [h3]; rfl
  · rw [h4, hev, hw, Nat.zero_add]

theorem process_history_agree (c : Codec E D) (hc : c.encode_succeeds)
    (h1 h2 : Nat → List Bool) :
    ∀ (chunks : List (List Sample)) (k1 k2 : Nat) (s1 s2 : sound_input_impl E D),
      s1.temporary_buffer.readAvailable = s2.temporary_buffer.readAvailable →
      s1.temporary_buffer.buffer_size = s2.temporary_buffer.buffer_size →
      ∃ stats, process_history c h1 k1 s1 chunks = some stats ∧
        process_history c h2 k2 s2 chunks = some stats ∧ stats.length = chunks.length := by
  intro chunks
  induction chunks with
  | nil => intro k1 k2 s1 s2 _ _; exact ⟨[], rfl, rfl, rfl⟩
  | cons chunk rest ih =>
    intro k1 k2 s1 s2 hr hb
    obtain ⟨t1, e1, a1, a2, a3, a4⟩ :=
      process_input_counts_any c hc (apply_toggles s1 (h1 k1)) chunk
    obtain ⟨t2, e2, b1, b2, b3, b4⟩ :=
      process_input_counts_any c hc (apply_toggles s2 (h2 k2)) chunk
    rw [apply_toggles_buffer] at a2 a3 a4 b2 b3 b4
    have hwa : s1.temporary_buffer.writeAvailable = s2.temporary_buffer.writeAvailable := by
      simp only [Ringbuffer.writeAvailable, Ringbuffer.readAvailable] at hr ⊢
      rw [hr, hb]
    have hread : t1.temporary_buffer.readAvailable = t2.temporary_buffer.readAvailable := by
      rw [a2, b2, hr, hwa]
    have hcalls : encode_calls e1 = encode_calls e2 := by
      rw [a4, b4, hr, hwa]
    obtain ⟨stats, c1, c2, c3⟩ := ih (k1 + 1) (k2 + 1) t1 t2 hread (by rw [a3, b3, hb])
    refine ⟨(encode_calls e1, t1.temporary_buffer.readAvailable) :: stats, ?_, ?_, ?_⟩
    · simp only [process_history, a1, c1]
    · simp only [process_history, b1, c2, hcalls, hread]
    · simp [c3]

/-- C14.  Denoise toggling.  With an encoder that succeeds on every frame, for every
sequence of chunks and every two histories of `toggle_rnnoise` calls made before the
capture callbacks, all callbacks return and the number of encode calls made in each
callback and the number of samples buffered after it are the same under both
histories; a frame drain takes exactly 960 samples from the ring buffer whatever the
flag; and `toggle_rnnoise` changes the denoise flag and nothing else. -/
theorem denoise_toggle_keeps_cadence (c : Codec E D) (hc : c.encode_succeeds)
    (s : sound_input_impl E D) (chunks : List (List Sample)) (h1 h2 : Nat → List Bool) :
    (∃ stats, process_history c h1 0 s chunks = some stats ∧
      process_history c h2 0 s chunks = some stats ∧ stats.length = chunks.length) ∧
    (∀ (t : sound_input_impl E D) (ev : List InputEvent) (b : Bool),
      kOpusFrameSize ≤ t.temporary_buffer.readAvailable →
      (drain_frame c (toggle_rnnoise t b) ev).1.temporary_buffer.readAvailable + kOpusFrameSize
        = t.temporary_buffer.readAvailable) ∧
    (∀ (t : sound_input_impl E D) (b : Bool),
      toggle_rnnoise t b = { t with rnnoise_active := b }) := by
  refine ⟨process_history_agree c hc h1 h2 chunks 0 0 s s rfl rfl, ?_, fun t b => rfl⟩
  intro t ev b hge
  rw [drain_frame_buffer]
  simp only [toggle_rnnoise, Ringbuffer.readBuff, Ringbuffer.readAvailable, List.length_drop]
    at hge ⊢
  rw [Nat.min_eq_left hge]
  omega

theorem denoise_toggle_keeps_cadence_witness :
    okCodec.encode_succeeds ∧
    ∃ stats, process_history okCodec (fun k => if k = 0 then [true] else []) 0 emptySession
          exampleChunks = some stats ∧
      process_history okCodec (fun _ => [true, false]) 0 emptySession exampleChunks
        = some stats ∧
      stats.length = exampleChunks.length :=
  ⟨okCodec_encode_succeeds,
    (denoise_toggle_keeps_cadence okCodec okCodec_encode_succeeds emptySession exampleChunks
      (fun k => if k = 0 then [true] else []) (fun _ => [true, false])).1⟩

end CaptureMore

end kvoice
